import Mathlib

/-!
Shallow embedding of the `ls` scripting-language interpreter
(lexer, parser, evaluator, builtin registry) for checking the
natural-language specification against the source.

Conventions of the embedding:
* `Decimal` (the crate's exact-decimal type `rust_decimal::Decimal`) is
  modelled by `Rat`.  All arithmetic the verified claims touch
  (`+ - *`, remainder, division by nonzero integers) is exact in both.
* Rust `HashMap<String, V>` is modelled by an association list with
  key-replacing insert; only `get`/`insert`/`clone` are used by the source.
* A builtin's host implementation (`fn(Input) -> Output`) is
  defunctionalised into a `BuiltinName` tag interpreted by `builtinImpl`.
* Process aborts of the interpreter (`exit(1)`/`exit(3)` in
  `execute_block`, `unwrap`/`unreachable!` panics) and the host-delegated
  operations (f64 transcendentals, rand, I/O, regex, Unicode casing) are
  modelled as distinguished `RunError` values, separate from the source's
  recoverable `ExprError`.
* `while` loops may diverge, so evaluation takes a fuel parameter;
  `RunError.outOfFuel` marks exhaustion and is never produced on a
  terminating run given enough fuel.
-/

namespace LsSpec

/-- Decimal numbers of the interpreter, idealised as exact rationals. -/
abbrev Decimal := Rat

/-- Truncation toward zero, as Rust's `Decimal` division/remainder uses. -/
def decTrunc (q : Decimal) : Int :=
  if 0 ≤ q then ⌊q⌋ else ⌈q⌉

/-- Remainder of `a % b` on decimals: `a - b * trunc(a / b)`
(sign follows the dividend, as in `rust_decimal`). -/
def decRem (a b : Decimal) : Decimal :=
  a - b * (decTrunc (a / b) : Decimal)

/-- Value type tags, from `data.rs` (`DataType`). -/
inductive DataType where
  | Number
  | Bool
  | Null
  | Any
  | String
  | Array
  | Function
deriving DecidableEq, Repr

/-- Display of a `DataType` (the Rust `Display` impl prints the
`Debug` variant name). -/
def dtDisplay : DataType → String
  | .Number => "Number"
  | .Bool => "Bool"
  | .Null => "Null"
  | .Any => "Any"
  | .String => "String"
  | .Array => "Array"
  | .Function => "Function"

/-- DataType `is_any` (from `strum::EnumIs`). -/
def dtIsAny : DataType → Bool
  | .Any => true
  | _ => false

/-- Tags naming the host functions installed in the builtin registry
(`functions/*.rs`); each tag stands for the Rust `fn` of the same name.
The four `ho*` tags are the higher-order functions of
`functions/higher_order.rs`. -/
inductive BuiltinName where
  | sqrt | abs | abs_diff | rand | rand_between | max | min
  | add | sub | div | mul | neg | mod_func
  | round | ceil | floor | pow | sign
  | sin | cos | tan | log | log10 | log2 | trunc
  | tanh | exp | sinh | cosh | cbrt
  | atanh | atan | atan2 | asin | asinh | acos | acosh
  | or | and | not | xor | ne | eq | ge | le | gt | lt
  | join | join_after | surround | string | center | count
  | ends_with | starts_with | find
  | is_numeric | is_alphanumeric | is_alphabetic | is_ascii
  | matches | is_lowercase | is_uppercase | is_whitespace
  | trim | replace | split | uppercase | lowercase
  | upper_camel_case | lower_camel_case | snake_case | kebab_case
  | shouty_kebab_case | shouty_snake_case | title_case | train_case
  | join_array | sort | length | index | append | flatten | extend
  | reverse | without | with_insert | range | max_array | min_array
  | first | last
  | type_of | print | println | input | read_file | write_file
  | hoMap | hoForEach | hoFilter | hoFold
deriving DecidableEq, Repr

mutual

/-- AST of the language, from `expr/mod.rs` (`enum Expr`). -/
inductive Expr where
  | Num (n : Decimal)
  | Bool (b : Bool)
  | String (s : String)
  | Array (a : List Expr)
  | Null
  | Neg (e : Expr)
  | Add (l r : Expr)
  | Sub (l r : Expr)
  | Mul (l r : Expr)
  | Div (l r : Expr)
  | Mod (l r : Expr)
  | Gt (l r : Expr)
  | Lt (l r : Expr)
  | Ge (l r : Expr)
  | Le (l r : Expr)
  | Eq (l r : Expr)
  | Ne (l r : Expr)
  | Not (e : Expr)
  | And (l r : Expr)
  | Or (l r : Expr)
  | Xor (l r : Expr)
  | Block (es : List Expr)
  | Function (name : String) (args : List Expr)
  | FunctionDeclaration (name : String) (fd : FunctionDescriptor)
  | VariableDeclaration (name : String) (e : Expr)
  | Variable (name : String)
  | If (cond : Expr) (thenB : List Expr)
       (elifs : List (Expr × List Expr)) (elseB : Option (List Expr))
  | For (name : String) (iter : Expr) (body : List Expr)
  | While (cond : Expr) (body : List Expr)

/-- Function metadata + body, from `functions/mod.rs` (`FunctionDescriptor`). -/
inductive FunctionDescriptor where
  | mk (inputs : List DataType) (function : FunctionType) (output : DataType)

/-- Function body: a host builtin (by tag) or a user block with its
parameter names, from `functions/mod.rs` (`FunctionType`). -/
inductive FunctionType where
  | BuiltIn (f : BuiltinName)
  | Custom (block : List Expr) (inputNames : List String)

end

/-- Runtime values, from `data.rs` (`enum Data`). -/
inductive Data where
  | Number (n : Decimal)
  | Bool (b : Bool)
  | String (s : String)
  | Null
  | Array (a : List Data)
  | Function (f : FunctionDescriptor)

def FunctionDescriptor.inputs : FunctionDescriptor → List DataType
  | .mk i _ _ => i

def FunctionDescriptor.function : FunctionDescriptor → FunctionType
  | .mk _ f _ => f

def FunctionDescriptor.output : FunctionDescriptor → DataType
  | .mk _ _ o => o

/-- `Data::_type` from `data.rs`. -/
def dataType : Data → DataType
  | .Number _ => .Number
  | .Bool _ => .Bool
  | .String _ => .String
  | .Null => .Null
  | .Array _ => .Array
  | .Function _ => .Function

/-- `Data::is_true` from `data.rs`: the boolean payload, anything
non-bool counting as false. -/
def dataIsTrue : Data → Bool
  | .Bool b => b
  | _ => false

mutual

/-- Structural equality on expressions (derived `PartialEq` in Rust). -/
def exprBeq : Expr → Expr → Bool
  | .Num a, .Num b => a == b
  | .Bool a, .Bool b => a == b
  | .String a, .String b => a == b
  | .Array a, .Array b => exprListBeq a b
  | .Null, .Null => true
  | .Neg a, .Neg b => exprBeq a b
  | .Add a1 a2, .Add b1 b2 => exprBeq a1 b1 && exprBeq a2 b2
  | .Sub a1 a2, .Sub b1 b2 => exprBeq a1 b1 && exprBeq a2 b2
  | .Mul a1 a2, .Mul b1 b2 => exprBeq a1 b1 && exprBeq a2 b2
  | .Div a1 a2, .Div b1 b2 => exprBeq a1 b1 && exprBeq a2 b2
  | .Mod a1 a2, .Mod b1 b2 => exprBeq a1 b1 && exprBeq a2 b2
  | .Gt a1 a2, .Gt b1 b2 => exprBeq a1 b1 && exprBeq a2 b2
  | .Lt a1 a2, .Lt b1 b2 => exprBeq a1 b1 && exprBeq a2 b2
  | .Ge a1 a2, .Ge b1 b2 => exprBeq a1 b1 && exprBeq a2 b2
  | .Le a1 a2, .Le b1 b2 => exprBeq a1 b1 && exprBeq a2 b2
  | .Eq a1 a2, .Eq b1 b2 => exprBeq a1 b1 && exprBeq a2 b2
  | .Ne a1 a2, .Ne b1 b2 => exprBeq a1 b1 && exprBeq a2 b2
  | .Not a, .Not b => exprBeq a b
  | .And a1 a2, .And b1 b2 => exprBeq a1 b1 && exprBeq a2 b2
  | .Or a1 a2, .Or b1 b2 => exprBeq a1 b1 && exprBeq a2 b2
  | .Xor a1 a2, .Xor b1 b2 => exprBeq a1 b1 && exprBeq a2 b2
  | .Block a, .Block b => exprListBeq a b
  | .Function n1 a1, .Function n2 a2 => n1 == n2 && exprListBeq a1 a2
  | .FunctionDeclaration n1 f1, .FunctionDeclaration n2 f2 =>
      n1 == n2 && fdBeq f1 f2
  | .VariableDeclaration n1 e1, .VariableDeclaration n2 e2 =>
      n1 == n2 && exprBeq e1 e2
  | .Variable n1, .Variable n2 => n1 == n2
  | .If c1 t1 e1 x1, .If c2 t2 e2 x2 =>
      exprBeq c1 c2 && exprListBeq t1 t2 && elifsBeq e1 e2 && optBlockBeq x1 x2
  | .For n1 i1 b1, .For n2 i2 b2 => n1 == n2 && exprBeq i1 i2 && exprListBeq b1 b2
  | .While c1 b1, .While c2 b2 => exprBeq c1 c2 && exprListBeq b1 b2
  | _, _ => false

def exprListBeq : List Expr → List Expr → Bool
  | [], [] => true
  | a :: as_, b :: bs => exprBeq a b && exprListBeq as_ bs
  | _, _ => false

def elifsBeq : List (Expr × List Expr) → List (Expr × List Expr) → Bool
  | [], [] => true
  | (c1, b1) :: r1, (c2, b2) :: r2 =>
      exprBeq c1 c2 && exprListBeq b1 b2 && elifsBeq r1 r2
  | _, _ => false

def optBlockBeq : Option (List Expr) → Option (List Expr) → Bool
  | none, none => true
  | some a, some b => exprListBeq a b
  | _, _ => false

def fdBeq : FunctionDescriptor → FunctionDescriptor → Bool
  | .mk i1 f1 o1, .mk i2 f2 o2 => i1 == i2 && ftBeq f1 f2 && o1 == o2

def ftBeq : FunctionType → FunctionType → Bool
  | .BuiltIn a, .BuiltIn b => a == b
  | .Custom bl1 n1, .Custom bl2 n2 => exprListBeq bl1 bl2 && n1 == n2
  | _, _ => false

end

mutual

/-- Structural equality on values (derived `PartialEq` on `Data`;
builtin bodies compare by host-function identity, i.e. by tag). -/
def dataBeq : Data → Data → Bool
  | .Number a, .Number b => a == b
  | .Bool a, .Bool b => a == b
  | .String a, .String b => a == b
  | .Null, .Null => true
  | .Array a, .Array b => dataListBeq a b
  | .Function f, .Function g => fdBeq f g
  | _, _ => false

def dataListBeq : List Data → List Data → Bool
  | [], [] => true
  | a :: as_, b :: bs => dataBeq a b && dataListBeq as_ bs
  | _, _ => false

end

/-- Recoverable evaluation errors, from `expr/error.rs` (`ExprError`).
`ArrayIsEmpty` is referenced by `functions/array.rs` (`first`/`last`/
`min_array`/`max_array`) but missing from `expr/error.rs` as committed
(the crate does not compile); the embedding supplies the intended
variant. -/
inductive ExprError where
  | DivideBy0
  | InvalidFunctionArguements (expected found : String)
  | FunctionNotFound (name : String)
  | VariableNotFound (name : String)
  | InvalidDataType (expected found loc : String)
  | InvalidRegex (pattern : String)
  | ArrayIsEmpty
deriving DecidableEq, Repr

/-- Everything a run can do besides return a value: a recoverable
`ExprError`, the `exit(1)` of the output-type check in `execute_block`,
a host panic (`unwrap`/`unreachable!`/index out of bounds), an operation
delegated to the host (f64 math, rand, I/O, regex, Unicode casing) that
the exact embedding leaves abstract, or fuel exhaustion. -/
inductive RunError where
  | expr (e : ExprError)
  | fnTypeCheckFail (name : String)
  | panic
  | hostOp (b : BuiltinName)
  | outOfFuel
deriving DecidableEq, Repr

/-- Name-keyed function registry (`HashMap<String, FunctionDescriptor>`),
as an association list; `get` is `lookupStr`, `insert` is `insertStr`. -/
def lookupStr {α : Type} (m : List (String × α)) (k : String) : Option α :=
  (m.find? (fun p => p.1 == k)).map (fun p => p.2)

/-- HashMap `insert`: replaces any existing binding of the key. -/
def insertStr {α : Type} (m : List (String × α)) (k : String) (v : α) :
    List (String × α) :=
  (k, v) :: m.filter (fun p => p.1 != k)

abbrev FunctionMap := List (String × FunctionDescriptor)
abbrev VariableMap := List (String × Data)

/-- `format_types` from `data.rs`: `"(T1, T2, …)"`. -/
def formatTypes (types : List DataType) : String :=
  "(" ++ String.intercalate ", " (types.map dtDisplay) ++ ")"

/-- `Data::number`: the decimal payload.  The Rust accessor panics on
any other variant (`unreachable!`); the checked dispatch never invokes a
numeric builtin on a non-number, and the embedding returns 0 on the
unreachable arms. -/
def dataNumber : Data → Decimal
  | .Number n => n
  | _ => 0

/-- `Data::bool` (panics on non-bool in Rust; unreachable arm gives false). -/
def dataBool : Data → Bool
  | .Bool b => b
  | _ => false

/-- `Data::string` (panics on non-string in Rust; unreachable arm gives ""). -/
def dataString : Data → String
  | .String s => s
  | _ => ""

/-- `Data::array` (panics on non-array in Rust; unreachable arm gives []). -/
def dataArray : Data → List Data
  | .Array a => a
  | _ => []

/-- `Data::function` (panics on non-function in Rust); `none` models the
panic. -/
def dataFunction : Data → Option FunctionDescriptor
  | .Function f => some f
  | _ => none

/-- `nth(i)` of an `Input` vector.  Rust's `i[k]` panics when out of
bounds; `none` models the panic. -/
def inputAt (i : List Data) (k : Nat) : Option Data := i.get? k

/-- The constant map from `constants.rs`: `PI`, `E`, `E_INVERSE`
(bound to `Decimal::E` in the source), `HALF_PI`, `QUARTER_PI`.
The numeric values are the 28-digit decimals of `rust_decimal`. -/
def constantsMap : VariableMap :=
  [("PI", Data.Number (3.1415926535897932384626433833 : Decimal)),
   ("E", Data.Number (2.7182818284590452353602874714 : Decimal)),
   ("E_INVERSE", Data.Number (2.7182818284590452353602874714 : Decimal)),
   ("HALF_PI", Data.Number (1.5707963267948966192313216916 : Decimal)),
   ("QUARTER_PI", Data.Number (0.7853981633974483096156608458 : Decimal))].reverse


/-- Comparison on `Decimal`. -/
def decCompare (a b : Decimal) : Ordering :=
  if a < b then .lt else if a == b then .eq else .gt

mutual

/-- `Ord for Data` from `data.rs`: numbers, strings and arrays compare
within their kind; every other pair panics (`none`). -/
def dataCmp : Data → Data → Option Ordering
  | .Number a, .Number b => some (decCompare a b)
  | .String a, .String b => some (compare a b)
  | .Array a, .Array b => dataListCmp a b
  | _, _ => none

def dataListCmp : List Data → List Data → Option Ordering
  | [], [] => some .eq
  | [], _ :: _ => some .lt
  | _ :: _, [] => some .gt
  | a :: as_, b :: bs =>
      match dataCmp a b with
      | none => none
      | some .eq => dataListCmp as_ bs
      | some o => some o

end

/-- Stable insertion into a sorted list (agrees with Rust's stable
`sort` whenever every needed comparison is defined). -/
def insertSorted (x : Data) : List Data → Option (List Data)
  | [] => some [x]
  | y :: ys =>
      match dataCmp x y with
      | none => none
      | some .gt => (insertSorted x ys).map (fun zs => y :: zs)
      | some _ => some (x :: y :: ys)

/-- `Vec::sort` on `Data` (panics, via `Ord`, on incomparable pairs). -/
def sortData : List Data → Option (List Data)
  | [] => some []
  | x :: xs => sortData xs >>= insertSorted x

/-- Conversion `Decimal::to_usize` (`None` on negative or fractional
values in the ranges the claims use). -/
def decToUsize (q : Decimal) : Option Nat :=
  if q.den = 1 ∧ 0 ≤ q.num then some q.num.toNat else none

/-- Outcome type of a builtin body: the Rust `Output` (`EResult<Data>`)
plus the embedding's panic/host markers. -/
abbrev BOutput := Except RunError Data

/-- Lift the Rust `Err(ExprError)` side. -/
def bErr (e : ExprError) : BOutput := .error (.expr e)

/-- Implementations of the first-order builtins, one arm per Rust `fn`
in `functions/{numeric,boolean,array,other}.rs`.  Arms marked `hostOp`
delegate to the host (f64 transcendentals, `rand`, I/O, regex, Unicode
casing, decimal-string formatting) and stay abstract; no verified claim
invokes them.  `panic` models Rust `unwrap`/index panics. -/
def builtinImplPure (b : BuiltinName) (i : List Data) : BOutput :=
  match b with
  | .add =>
      -- let rhs = i[0]; let lhs = i[1]; lhs + rhs
      match inputAt i 0, inputAt i 1 with
      | some rhs, some lhs => .ok (.Number (dataNumber lhs + dataNumber rhs))
      | _, _ => .error .panic
  | .sub =>
      -- let rhs = i[0]; let lhs = i[1]; lhs - rhs
      match inputAt i 0, inputAt i 1 with
      | some rhs, some lhs => .ok (.Number (dataNumber lhs - dataNumber rhs))
      | _, _ => .error .panic
  | .mul =>
      match inputAt i 0, inputAt i 1 with
      | some rhs, some lhs => .ok (.Number (dataNumber lhs * dataNumber rhs))
      | _, _ => .error .panic
  | .div =>
      -- errors DivideBy0 when i[0] (named rhs in the source) is zero
      match inputAt i 0, inputAt i 1 with
      | some rhs, some lhs =>
          if dataNumber rhs == 0 then bErr .DivideBy0
          else .ok (.Number (dataNumber lhs / dataNumber rhs))
      | _, _ => .error .panic
  | .mod_func =>
      -- let rhs = i[0]; let lhs = i[1]; lhs % rhs
      match inputAt i 0, inputAt i 1 with
      | some rhs, some lhs => .ok (.Number (decRem (dataNumber lhs) (dataNumber rhs)))
      | _, _ => .error .panic
  | .neg =>
      match inputAt i 0 with
      | some a => .ok (.Number (-(dataNumber a)))
      | _ => .error .panic
  | .abs =>
      match inputAt i 0 with
      | some a => .ok (.Number |dataNumber a|)
      | _ => .error .panic
  | .abs_diff =>
      match inputAt i 0, inputAt i 1 with
      | some a, some b =>
          .ok (.Number (max (dataNumber a) (dataNumber b) -
                        min (dataNumber a) (dataNumber b)))
      | _, _ => .error .panic
  | .max =>
      match inputAt i 0, inputAt i 1 with
      | some a, some b => .ok (.Number (max (dataNumber a) (dataNumber b)))
      | _, _ => .error .panic
  | .min =>
      match inputAt i 0, inputAt i 1 with
      | some a, some b => .ok (.Number (min (dataNumber a) (dataNumber b)))
      | _, _ => .error .panic
  | .sign =>
      match inputAt i 0 with
      | some a =>
          let n := dataNumber a
          .ok (.Number (if n == 0 then 0 else if 0 < n then 1 else -1))
      | _ => .error .panic
  | .and =>
      match inputAt i 0, inputAt i 1 with
      | some a, some b => .ok (.Bool (dataBool a && dataBool b))
      | _, _ => .error .panic
  | .or =>
      match inputAt i 0, inputAt i 1 with
      | some a, some b => .ok (.Bool (dataBool a || dataBool b))
      | _, _ => .error .panic
  | .not =>
      match inputAt i 0 with
      | some a => .ok (.Bool (!dataBool a))
      | _ => .error .panic
  | .xor =>
      match inputAt i 0, inputAt i 1 with
      | some a, some b => .ok (.Bool (Bool.xor (dataBool a) (dataBool b)))
      | _, _ => .error .panic
  | .eq =>
      match inputAt i 0, inputAt i 1 with
      | some a, some b => .ok (.Bool (dataBeq a b))
      | _, _ => .error .panic
  | .ne =>
      match inputAt i 0, inputAt i 1 with
      | some a, some b => .ok (.Bool (!dataBeq a b))
      | _, _ => .error .panic
  | .gt =>
      match inputAt i 0, inputAt i 1 with
      | some a, some b => .ok (.Bool (decide (dataNumber a > dataNumber b)))
      | _, _ => .error .panic
  | .lt =>
      match inputAt i 0, inputAt i 1 with
      | some a, some b => .ok (.Bool (decide (dataNumber a < dataNumber b)))
      | _, _ => .error .panic
  | .ge =>
      match inputAt i 0, inputAt i 1 with
      | some a, some b => .ok (.Bool (decide (dataNumber a ≥ dataNumber b)))
      | _, _ => .error .panic
  | .le =>
      match inputAt i 0, inputAt i 1 with
      | some a, some b => .ok (.Bool (decide (dataNumber a ≤ dataNumber b)))
      | _, _ => .error .panic
  | .sort =>
      match inputAt i 0 with
      | some a =>
          match sortData (dataArray a) with
          | some out => .ok (.Array out)
          | none => .error .panic
      | _ => .error .panic
  | .length =>
      match inputAt i 0 with
      | some a => .ok (.Number ((dataArray a).length : Decimal))
      | _ => .error .panic
  | .index =>
      match inputAt i 0, inputAt i 1 with
      | some a, some n =>
          match decToUsize (dataNumber n) with
          | some k =>
              match (dataArray a).get? k with
              | some v => .ok v
              | none => .error .panic
          | none => .error .panic
      | _, _ => .error .panic
  | .append =>
      match inputAt i 0, inputAt i 1 with
      | some a, some b => .ok (.Array (dataArray a ++ [b]))
      | _, _ => .error .panic
  | .flatten =>
      match inputAt i 0 with
      | some a =>
          .ok (.Array ((dataArray a).flatMap
            (fun d => match d with
                      | .Array inner => inner
                      | d => [d])))
      | _ => .error .panic
  | .extend =>
      match inputAt i 0, inputAt i 1 with
      | some a, some b => .ok (.Array (dataArray a ++ dataArray b))
      | _, _ => .error .panic
  | .reverse =>
      match inputAt i 0 with
      | some a => .ok (.Array (dataArray a).reverse)
      | _ => .error .panic
  | .without =>
      match inputAt i 0, inputAt i 1 with
      | some a, some n =>
          match decToUsize (dataNumber n) with
          | some k =>
              if k < (dataArray a).length
              then .ok (.Array ((dataArray a).eraseIdx k))
              else .error .panic
          | none => .error .panic
      | _, _ => .error .panic
  | .with_insert =>
      match inputAt i 0, inputAt i 1, inputAt i 2 with
      | some a, some n, some item =>
          match decToUsize (dataNumber n) with
          | some k =>
              if k ≤ (dataArray a).length
              then .ok (.Array ((dataArray a).take k ++ item :: (dataArray a).drop k))
              else .error .panic
          | none => .error .panic
      | _, _, _ => .error .panic
  | .range =>
      -- ((i[0] as usize)..(i[1] as usize)).collect()
      match inputAt i 0, inputAt i 1 with
      | some a, some b =>
          match decToUsize (dataNumber a), decToUsize (dataNumber b) with
          | some lo, some hi =>
              .ok (.Array ((List.range' lo (hi - lo)).map
                    (fun n => .Number (n : Decimal))))
          | _, _ => .error .panic
      | _, _ => .error .panic
  | .max_array =>
      match inputAt i 0 with
      | some a =>
          match sortData (dataArray a) with
          | some out =>
              match out.getLast? with
              | some v => .ok v
              | none => bErr .ArrayIsEmpty
          | none => .error .panic
      | _ => .error .panic
  | .min_array =>
      match inputAt i 0 with
      | some a =>
          match sortData (dataArray a) with
          | some out =>
              match out.head? with
              | some v => .ok v
              | none => bErr .ArrayIsEmpty
          | none => .error .panic
      | _ => .error .panic
  | .first =>
      match inputAt i 0 with
      | some a =>
          match (dataArray a).head? with
          | some v => .ok v
          | none => bErr .ArrayIsEmpty
      | _ => .error .panic
  | .last =>
      match inputAt i 0 with
      | some a =>
          match (dataArray a).getLast? with
          | some v => .ok v
          | none => bErr .ArrayIsEmpty
      | _ => .error .panic
  | .type_of =>
      match inputAt i 0 with
      | some a => .ok (.String (dtDisplay (dataType a)))
      | _ => .error .panic
  | b => .error (.hostOp b)

/-! Descriptors from `functions/numeric.rs`. -/
def mod_descriptor : FunctionDescriptor := .mk [.Number, .Number] (.BuiltIn .mod_func) .Number
def add_descriptor : FunctionDescriptor := .mk [.Number, .Number] (.BuiltIn .add) .Number
def sub_descriptor : FunctionDescriptor := .mk [.Number, .Number] (.BuiltIn .sub) .Number
def mul_descriptor : FunctionDescriptor := .mk [.Number, .Number] (.BuiltIn .mul) .Number
def div_descriptor : FunctionDescriptor := .mk [.Number, .Number] (.BuiltIn .div) .Number
def neg_descriptor : FunctionDescriptor := .mk [.Number] (.BuiltIn .neg) .Number
def sqrt_descriptor : FunctionDescriptor := .mk [.Number] (.BuiltIn .sqrt) .Number
def abs_descriptor : FunctionDescriptor := .mk [.Number] (.BuiltIn .abs) .Number
def abs_diff_descriptor : FunctionDescriptor := .mk [.Number, .Number] (.BuiltIn .abs_diff) .Number
def rand_descriptor : FunctionDescriptor := .mk [] (.BuiltIn .rand) .Number
def rand_between_descriptor : FunctionDescriptor := .mk [.Number, .Number] (.BuiltIn .rand_between) .Number
def max_descriptor : FunctionDescriptor := .mk [.Number, .Number] (.BuiltIn .max) .Number
def min_descriptor : FunctionDescriptor := .mk [.Number, .Number] (.BuiltIn .min) .Number
def ceil_descriptor : FunctionDescriptor := .mk [.Number] (.BuiltIn .ceil) .Number
def floor_descriptor : FunctionDescriptor := .mk [.Number] (.BuiltIn .floor) .Number
def round_descriptor : FunctionDescriptor := .mk [.Number] (.BuiltIn .round) .Number
def pow_descriptor : FunctionDescriptor := .mk [.Number, .Number] (.BuiltIn .pow) .Number
def sign_descriptor : FunctionDescriptor := .mk [.Number] (.BuiltIn .sign) .Number
def sin_descriptor : FunctionDescriptor := .mk [.Number] (.BuiltIn .sin) .Number
def cos_descriptor : FunctionDescriptor := .mk [.Number] (.BuiltIn .cos) .Number
def tan_descriptor : FunctionDescriptor := .mk [.Number] (.BuiltIn .tan) .Number
def log_descriptor : FunctionDescriptor := .mk [.Number] (.BuiltIn .log) .Number
def log2_descriptor : FunctionDescriptor := .mk [.Number] (.BuiltIn .log2) .Number
def log10_descriptor : FunctionDescriptor := .mk [.Number] (.BuiltIn .log10) .Number
def acos_descriptor : FunctionDescriptor := .mk [.Number] (.BuiltIn .acos) .Number
def acosh_descriptor : FunctionDescriptor := .mk [.Number] (.BuiltIn .acosh) .Number
def asin_descriptor : FunctionDescriptor := .mk [.Number] (.BuiltIn .asin) .Number
def asinh_descriptor : FunctionDescriptor := .mk [.Number] (.BuiltIn .asinh) .Number
def atan_descriptor : FunctionDescriptor := .mk [.Number] (.BuiltIn .atan) .Number
def atan2_descriptor : FunctionDescriptor := .mk [.Number, .Number] (.BuiltIn .atan2) .Number
def atanh_descriptor : FunctionDescriptor := .mk [.Number] (.BuiltIn .atanh) .Number
def cbrt_descriptor : FunctionDescriptor := .mk [.Number] (.BuiltIn .cbrt) .Number
def cosh_descriptor : FunctionDescriptor := .mk [.Number] (.BuiltIn .cosh) .Number
def exp_descriptor : FunctionDescriptor := .mk [.Number] (.BuiltIn .exp) .Number
def sinh_descriptor : FunctionDescriptor := .mk [.Number] (.BuiltIn .sinh) .Number
def tanh_descriptor : FunctionDescriptor := .mk [.Number] (.BuiltIn .tanh) .Number
def trunc_descriptor : FunctionDescriptor := .mk [.Number] (.BuiltIn .trunc) .Number

/-! Descriptors from `functions/boolean.rs`. -/
def and_descriptor : FunctionDescriptor := .mk [.Bool, .Bool] (.BuiltIn .and) .Bool
def or_descriptor : FunctionDescriptor := .mk [.Bool, .Bool] (.BuiltIn .or) .Bool
def eq_descriptor : FunctionDescriptor := .mk [.Any, .Any] (.BuiltIn .eq) .Bool
def ne_descriptor : FunctionDescriptor := .mk [.Any, .Any] (.BuiltIn .ne) .Bool
def not_descriptor : FunctionDescriptor := .mk [.Bool] (.BuiltIn .not) .Bool
def xor_descriptor : FunctionDescriptor := .mk [.Bool, .Bool] (.BuiltIn .xor) .Bool
def gt_descriptor : FunctionDescriptor := .mk [.Number, .Number] (.BuiltIn .gt) .Bool
def lt_descriptor : FunctionDescriptor := .mk [.Number, .Number] (.BuiltIn .lt) .Bool
def ge_descriptor : FunctionDescriptor := .mk [.Number, .Number] (.BuiltIn .ge) .Bool
def le_descriptor : FunctionDescriptor := .mk [.Number, .Number] (.BuiltIn .le) .Bool

/-! Descriptors from `functions/string.rs`. -/
def string_descriptor : FunctionDescriptor := .mk [.Any] (.BuiltIn .string) .String
def join_descriptor : FunctionDescriptor := .mk [.Any, .Any] (.BuiltIn .join) .String
def join_after_descriptor : FunctionDescriptor := .mk [.Any, .Any] (.BuiltIn .join_after) .String
def surround_descriptor : FunctionDescriptor := .mk [.Any, .Any, .Any] (.BuiltIn .surround) .String
def uppercase_descriptor : FunctionDescriptor := .mk [.String] (.BuiltIn .uppercase) .String
def lowercase_descriptor : FunctionDescriptor := .mk [.String] (.BuiltIn .lowercase) .String
def snake_case_descriptor : FunctionDescriptor := .mk [.String] (.BuiltIn .snake_case) .String
def kebab_case_descriptor : FunctionDescriptor := .mk [.String] (.BuiltIn .kebab_case) .String
def title_case_descriptor : FunctionDescriptor := .mk [.String] (.BuiltIn .title_case) .String
def upper_camel_case_descriptor : FunctionDescriptor := .mk [.String] (.BuiltIn .upper_camel_case) .String
def lower_camel_case_descriptor : FunctionDescriptor := .mk [.String] (.BuiltIn .lower_camel_case) .String
def shouty_kebab_case_descriptor : FunctionDescriptor := .mk [.String] (.BuiltIn .shouty_kebab_case) .String
def shouty_snake_case_descriptor : FunctionDescriptor := .mk [.String] (.BuiltIn .shouty_snake_case) .String
def train_case_descriptor : FunctionDescriptor := .mk [.String] (.BuiltIn .train_case) .String
def center_descriptor : FunctionDescriptor := .mk [.String, .Number, .String] (.BuiltIn .center) .String
def count_descriptor : FunctionDescriptor := .mk [.String, .String] (.BuiltIn .count) .Number
def ends_with_descriptor : FunctionDescriptor := .mk [.String, .String] (.BuiltIn .ends_with) .Bool
def starts_with_descriptor : FunctionDescriptor := .mk [.String, .String] (.BuiltIn .starts_with) .Bool
def find_descriptor : FunctionDescriptor := .mk [.String, .String] (.BuiltIn .find) .Number
def is_alphanumeric_descriptor : FunctionDescriptor := .mk [.String] (.BuiltIn .is_alphanumeric) .Bool
def is_alphabetic_descriptor : FunctionDescriptor := .mk [.String] (.BuiltIn .is_alphabetic) .Bool
def is_ascii_descriptor : FunctionDescriptor := .mk [.String] (.BuiltIn .is_ascii) .Bool
def is_numeric_descriptor : FunctionDescriptor := .mk [.String] (.BuiltIn .is_numeric) .Bool
def matches_descriptor : FunctionDescriptor := .mk [.String, .String] (.BuiltIn .matches) .Bool
def is_lowercase_descriptor : FunctionDescriptor := .mk [.String] (.BuiltIn .is_lowercase) .Bool
def is_uppercase_descriptor : FunctionDescriptor := .mk [.String] (.BuiltIn .is_uppercase) .Bool
def is_whitespace_descriptor : FunctionDescriptor := .mk [.String] (.BuiltIn .is_whitespace) .Bool
def trim_descriptor : FunctionDescriptor := .mk [.String] (.BuiltIn .trim) .String
def replace_descriptor : FunctionDescriptor := .mk [.String, .String, .String] (.BuiltIn .replace) .String
def split_descriptor : FunctionDescriptor := .mk [.String, .String] (.BuiltIn .split) .Array

/-! Descriptors from `functions/array.rs`. -/
def join_array_descriptor : FunctionDescriptor := .mk [.Array, .String] (.BuiltIn .join_array) .String
def sort_descriptor : FunctionDescriptor := .mk [.Array] (.BuiltIn .sort) .Array
def length_descriptor : FunctionDescriptor := .mk [.Array] (.BuiltIn .length) .Number
def index_descriptor : FunctionDescriptor := .mk [.Array, .Number] (.BuiltIn .index) .Any
def append_descriptor : FunctionDescriptor := .mk [.Array, .Any] (.BuiltIn .append) .Array
def flatten_descriptor : FunctionDescriptor := .mk [.Array] (.BuiltIn .flatten) .Array
def reverse_descriptor : FunctionDescriptor := .mk [.Array] (.BuiltIn .reverse) .Array
def extend_descriptor : FunctionDescriptor := .mk [.Array, .Array] (.BuiltIn .extend) .Array
def without_descriptor : FunctionDescriptor := .mk [.Array, .Number] (.BuiltIn .without) .Array
def with_insert_descriptor : FunctionDescriptor := .mk [.Array, .Number, .Any] (.BuiltIn .with_insert) .Array
def range_descriptor : FunctionDescriptor := .mk [.Number, .Number] (.BuiltIn .range) .Array
def max_array_descriptor : FunctionDescriptor := .mk [.Array] (.BuiltIn .max_array) .Any
def min_array_descriptor : FunctionDescriptor := .mk [.Array] (.BuiltIn .min_array) .Any
def first_descriptor : FunctionDescriptor := .mk [.Array] (.BuiltIn .first) .Any
def last_descriptor : FunctionDescriptor := .mk [.Array] (.BuiltIn .last) .Any

/-! Descriptors from `functions/other.rs`. -/
def print_descriptor : FunctionDescriptor := .mk [.Any] (.BuiltIn .print) .Null
def println_descriptor : FunctionDescriptor := .mk [.Any] (.BuiltIn .println) .Null
def type_of_descriptor : FunctionDescriptor := .mk [.Any] (.BuiltIn .type_of) .String
def input_descriptor : FunctionDescriptor := .mk [] (.BuiltIn .input) .String
def read_file_descriptor : FunctionDescriptor := .mk [.String] (.BuiltIn .read_file) .String
def write_file_descriptor : FunctionDescriptor := .mk [.String, .String] (.BuiltIn .write_file) .Null

/-! Descriptors from `functions/higher_order.rs` — note this module is
never declared in `functions/mod.rs`, so nothing below is reachable from
the registry. -/

/-! Descriptors from `functions/higher_order.rs`. -/
def map_descriptor : FunctionDescriptor := .mk [.Array, .Function] (.BuiltIn .hoMap) .Array
def for_each_descriptor : FunctionDescriptor := .mk [.Array, .Function] (.BuiltIn .hoForEach) .Null
def filter_descriptor : FunctionDescriptor := .mk [.Array, .Function] (.BuiltIn .hoFilter) .Array
def fold_descriptor : FunctionDescriptor := .mk [.Array, .Any, .Function] (.BuiltIn .hoFold) .Null

/-- The registry list of `builtints()` in `functions/mod.rs`, in source
order (`"tanh"` appears twice there, and `first`/`last` are defined in
`array.rs` but not registered). -/
def builtintsList : List (String × FunctionDescriptor) :=
  [("sqrt", sqrt_descriptor),
   ("abs", abs_descriptor),
   ("abs_diff", abs_diff_descriptor),
   ("rand", rand_descriptor),
   ("rand_between", rand_between_descriptor),
   ("max", max_descriptor),
   ("min", min_descriptor),
   ("add", add_descriptor),
   ("sub", sub_descriptor),
   ("div", div_descriptor),
   ("mul", mul_descriptor),
   ("neg", neg_descriptor),
   ("mod", mod_descriptor),
   ("round", round_descriptor),
   ("ceil", ceil_descriptor),
   ("floor", floor_descriptor),
   ("pow", pow_descriptor),
   ("sign", sign_descriptor),
   ("sin", sin_descriptor),
   ("cos", cos_descriptor),
   ("tan", tan_descriptor),
   ("log", log_descriptor),
   ("log10", log10_descriptor),
   ("log2", log2_descriptor),
   ("trunc", trunc_descriptor),
   ("tanh", tanh_descriptor),
   ("exp", exp_descriptor),
   ("sinh", sinh_descriptor),
   ("cosh", cosh_descriptor),
   ("tanh", tanh_descriptor),
   ("cbrt", cbrt_descriptor),
   ("atanh", atanh_descriptor),
   ("atan", atan_descriptor),
   ("atan2", atan2_descriptor),
   ("asin", asin_descriptor),
   ("asinh", asinh_descriptor),
   ("acos", acos_descriptor),
   ("acosh", acosh_descriptor),
   ("or", or_descriptor),
   ("and", and_descriptor),
   ("not", not_descriptor),
   ("xor", xor_descriptor),
   ("ne", ne_descriptor),
   ("eq", eq_descriptor),
   ("ge", ge_descriptor),
   ("le", le_descriptor),
   ("gt", gt_descriptor),
   ("lt", lt_descriptor),
   ("join", join_descriptor),
   ("join_after", join_after_descriptor),
   ("surround", surround_descriptor),
   ("string", string_descriptor),
   ("center", center_descriptor),
   ("count", count_descriptor),
   ("ends_with", ends_with_descriptor),
   ("starts_with", starts_with_descriptor),
   ("find", find_descriptor),
   ("is_numeric", is_numeric_descriptor),
   ("is_alphanumeric", is_alphanumeric_descriptor),
   ("is_alphabetic", is_alphabetic_descriptor),
   ("is_ascii", is_ascii_descriptor),
   ("matches", matches_descriptor),
   ("is_lowercase", is_lowercase_descriptor),
   ("is_uppercase", is_uppercase_descriptor),
   ("is_whitespace", is_whitespace_descriptor),
   ("trim", trim_descriptor),
   ("replace", replace_descriptor),
   ("split", split_descriptor),
   ("uppercase", uppercase_descriptor),
   ("lowercase", lowercase_descriptor),
   ("upper_camel_case", upper_camel_case_descriptor),
   ("lower_camel_case", lower_camel_case_descriptor),
   ("snake_case", snake_case_descriptor),
   ("kebab_case", kebab_case_descriptor),
   ("shouty_kebab_case", shouty_kebab_case_descriptor),
   ("shouty_snake_case", shouty_snake_case_descriptor),
   ("title_case", title_case_descriptor),
   ("train_case", train_case_descriptor),
   ("join_array", join_array_descriptor),
   ("sort", sort_descriptor),
   ("length", length_descriptor),
   ("index", index_descriptor),
   ("append", append_descriptor),
   ("flatten", flatten_descriptor),
   ("extend", extend_descriptor),
   ("reverse", reverse_descriptor),
   ("without", without_descriptor),
   ("with_insert", with_insert_descriptor),
   ("range", range_descriptor),
   ("max_array", max_array_descriptor),
   ("min_array", min_array_descriptor),
   ("type", type_of_descriptor),
   ("print", print_descriptor),
   ("println", println_descriptor),
   ("input", input_descriptor),
   ("read_file", read_file_descriptor),
   ("write_file", write_file_descriptor)]

/-- `builtints()` from `functions/mod.rs`: fold the list into the map. -/
def builtints : FunctionMap :=
  builtintsList.foldl (fun m p => insertStr m p.1 p.2) []

/-- Interpreter state, from `expr/mod.rs` (`ExecutionState`); the
`variables` field is named `vars` here because `variables` is reserved
in Lean. -/
structure ExecutionState where
  functions : FunctionMap
  vars : VariableMap
  constants : VariableMap

/-- `ExecutionState::new()`: builtin registry, empty variables, the
constant map. -/
def ExecutionState.new : ExecutionState :=
  ⟨builtints, [], constantsMap⟩

/-- The type check of the `run!` macro in `expr/mod.rs`: zip the
argument types with the expected list and require equality or `Any`
positionally.  `zip` silently drops the unmatched tail, so no arity
comparison happens here. -/
def typesMatch (inputs : List Data) (fdInputs : List DataType) : Bool :=
  ((inputs.map dataType).zip fdInputs).all (fun p => p.1 == p.2 || dtIsAny p.2)

/-- Parameter binding of a `Custom` call: `for (i, name) in
input_names.iter().enumerate() { vars.insert(name, inputs[i]) }`.
`none` models the `inputs[i]` index panic when fewer arguments than
parameter names were supplied. -/
def bindParams (vars : VariableMap) (names : List String) (args : List Data) :
    Option VariableMap :=
  if names.length ≤ args.length then
    some ((names.zip args).foldl (fun m p => insertStr m p.1 p.2) vars)
  else
    none

mutual

/-- `Expr::eval` from `expr/mod.rs`, with explicit state threading for
the Rust `&mut ExecutionState` and a fuel argument for the unbounded
`While` recursion. -/
def eval : Nat → Expr → ExecutionState → Except RunError (Data × ExecutionState)
  | 0, _, _ => .error .outOfFuel
  | f+1, e, s =>
    match e with
    | .Num n => .ok (.Number n, s)
    | .Bool b => .ok (.Bool b, s)
    | .Null => .ok (.Null, s)
    | .String str => .ok (.String str, s)
    | .Array a => (evalList f a s).map (fun p => (.Array p.1, p.2))
    | .Neg n => runFn f neg_descriptor [n] s
    | .Add l r => runFn f add_descriptor [l, r] s
    | .Sub l r => runFn f sub_descriptor [l, r] s
    | .Mul l r => runFn f mul_descriptor [l, r] s
    | .Div l r => runFn f div_descriptor [l, r] s
    | .Mod l r => runFn f mod_descriptor [l, r] s
    | .Le l r => runFn f le_descriptor [l, r] s
    | .Gt l r => runFn f gt_descriptor [l, r] s
    | .Ge l r => runFn f ge_descriptor [l, r] s
    | .Lt l r => runFn f lt_descriptor [l, r] s
    | .Eq l r => runFn f eq_descriptor [l, r] s
    | .Ne l r => runFn f ne_descriptor [l, r] s
    | .Not n => runFn f not_descriptor [n] s
    | .And l r => runFn f and_descriptor [l, r] s
    | .Or l r => runFn f or_descriptor [l, r] s
    | .Xor l r => runFn f xor_descriptor [l, r] s
    | .Block b => (executeBlock f b s).map (fun p => (p.1, s))
    | .If c tb elifs eb => do
        let (cv, s1) ← eval f c s
        match cv with
        | .Bool b =>
            if b then (executeBlock f tb s1).map (fun p => (p.1, s1))
            else evalElifs f elifs eb s1
        | _ => .error (.expr (.InvalidDataType "Bool"
                 (dtDisplay (dataType cv)) "if condition"))
    | .While c b => do
        -- initial_state := state.clone(); inner_state := state.clone();
        -- loop; *state = initial_state; Ok(Null)
        let _ ← whileLoop f c b s
        .ok (.Null, s)
    | .For name iter body => do
        let (av, s1) ← eval f iter s
        match av with
        | .Array arr => do
            let _ ← forLoop f name arr body s1
            .ok (.Null, s1)
        | _ => .error (.expr (.InvalidDataType "Array"
                 (dtDisplay (dataType av)) "for loop input"))
    | .Function name args =>
        match lookupStr s.functions name with
        | some fd => runFn f fd args s
        | none => .error (.expr (.FunctionNotFound name))
    | .FunctionDeclaration _ _ => .ok (.Null, s)
    | .Variable name =>
        match lookupStr s.vars name with
        | some v => .ok (v, s)
        | none =>
            match lookupStr s.constants name with
            | some v => .ok (v, s)
            | none => .error (.expr (.VariableNotFound name))
    | .VariableDeclaration name v => do
        let (val, s1) ← eval f v s
        .ok (.Null, { s1 with vars := insertStr s1.vars name val })

/-- Left-to-right evaluation of an argument/element list, threading the
state (the `inputs.iter().map(|e| e.eval(state)).collect()` of `run!`
and the `Expr::Array` arm). -/
def evalList : Nat → List Expr → ExecutionState →
    Except RunError (List Data × ExecutionState)
  | 0, _, _ => .error .outOfFuel
  | _+1, [], s => .ok ([], s)
  | f+1, e :: es, s => do
      let (v, s1) ← eval f e s
      let (vs, s2) ← evalList f es s1
      .ok (v :: vs, s2)

/-- The `for (cond, block) in elifs` loop of the `Expr::If` arm,
followed by the optional else block. -/
def evalElifs : Nat → List (Expr × List Expr) → Option (List Expr) →
    ExecutionState → Except RunError (Data × ExecutionState)
  | 0, _, _, _ => .error .outOfFuel
  | f+1, [], eb, s =>
      match eb with
      | some b => (executeBlock f b s).map (fun p => (p.1, s))
      | none => .ok (.Null, s)
  | f+1, (c, blk) :: rest, eb, s => do
      let (cv, s1) ← eval f c s
      match cv with
      | .Bool b =>
          if b then (executeBlock f blk s1).map (fun p => (p.1, s1))
          else evalElifs f rest eb s1
      | _ => .error (.expr (.InvalidDataType "Bool"
               (dtDisplay (dataType cv)) "if condition"))

/-- The `while is_true(cond.eval(&mut inner_state)?)` loop of the
`Expr::While` arm: the condition mutates the inner state, the body runs
via `execute_block` on it, and a non-bool condition stops the loop. -/
def whileLoop : Nat → Expr → List Expr → ExecutionState → Except RunError Unit
  | 0, _, _, _ => .error .outOfFuel
  | f+1, c, body, inner => do
      let (cv, inner1) ← eval f c inner
      if dataIsTrue cv then do
        let (_, inner2) ← executeBlock f body inner1
        whileLoop f c body inner2
      else
        .ok ()

/-- The `for data in array` loop of the `Expr::For` arm: each iteration
clones the caller state, binds the loop variable and discards the
resulting state. -/
def forLoop : Nat → String → List Data → List Expr → ExecutionState →
    Except RunError Unit
  | 0, _, _, _, _ => .error .outOfFuel
  | _+1, _, [], _, _ => .ok ()
  | f+1, name, d :: rest, body, s => do
      let _ ← executeBlock f body { s with vars := insertStr s.vars name d }
      forLoop f name rest body s

/-- The `run!` macro of `expr/mod.rs` (the shared body of `run_fn` and
`run_fn_owned`): evaluate the arguments, zip-check their types, then
invoke a builtin or execute a user block under a fresh
`ExecutionState::new()` with the parameters bound. -/
def runFn : Nat → FunctionDescriptor → List Expr → ExecutionState →
    Except RunError (Data × ExecutionState)
  | 0, _, _, _ => .error .outOfFuel
  | f+1, fd, inputExprs, s => do
      let (inputs, s1) ← evalList f inputExprs s
      if typesMatch inputs fd.inputs then
        match fd.function with
        | .BuiltIn bname => do
            let d ← builtinImpl f bname inputs
            .ok (d, s1)
        | .Custom block inputNames =>
            match bindParams ExecutionState.new.vars inputNames inputs with
            | some vars => do
                let (d, _) ← executeBlock f block
                  { ExecutionState.new with vars := vars }
                .ok (d, s1)
            | none => .error .panic
      else
        .error (.expr (.InvalidFunctionArguements (formatTypes fd.inputs)
          (formatTypes (inputs.map dataType))))

/-- `execute_block` from `main.rs`: clone the state, hoist the block's
function declarations (with the output-type check), then evaluate the
statements in order, returning the last value (or `Null`) and the final
inner state.  The Rust `exit(3)` on an evaluation error is modelled by
error propagation. -/
def executeBlock : Nat → List Expr → ExecutionState →
    Except RunError (Data × ExecutionState)
  | 0, _, _ => .error .outOfFuel
  | f+1, block, s => do
      let inner ← hoistPass f block s s
      execStmts f block .Null inner

/-- The hoisting loop of `execute_block`: `FunctionDeclaration`s are
checked (declared output type against the static type of the body's
last expression, computed against the *outer* state) and inserted into
the inner state's function map.  `exit(1)` on a mismatch is
`fnTypeCheckFail`; the `unreachable!` on a builtin body is `panic`. -/
def hoistPass : Nat → List Expr → ExecutionState → ExecutionState →
    Except RunError ExecutionState
  | 0, _, _, _ => .error .outOfFuel
  | _+1, [], _, inner => .ok inner
  | f+1, e :: rest, outer, inner =>
      match e with
      | .FunctionDeclaration name desc =>
          match desc.function with
          | .Custom block _ => do
              let dt ← dataTypeOf f (block.getLastD Expr.Null) outer
              if dt != desc.output && dt != .Any && desc.output != .Any then
                .error (.fnTypeCheckFail name)
              else
                hoistPass f rest outer
                  { inner with functions := insertStr inner.functions name desc }
          | _ => .error .panic
      | _ => hoistPass f rest outer inner

/-- The evaluation loop of `execute_block` (`output` starts `Null` and
takes each statement's value in turn). -/
def execStmts : Nat → List Expr → Data → ExecutionState →
    Except RunError (Data × ExecutionState)
  | 0, _, _, _ => .error .outOfFuel
  | _+1, [], out, inner => .ok (out, inner)
  | f+1, e :: rest, _, inner => do
      let (result, inner1) ← eval f e inner
      execStmts f rest result inner1

/-- `Expr::data_type` from `expr/mod.rs` (static type used only by the
hoist-time output check).  The `unwrap`s of the `Function` and
`Block`/`If` arms are `panic`. -/
def dataTypeOf : Nat → Expr → ExecutionState → Except RunError DataType
  | 0, _, _ => .error .outOfFuel
  | f+1, e, st =>
      match e with
      | .String _ => .ok .String
      | .Add _ _ | .Sub _ _ | .Mul _ _ | .Div _ _ | .Mod _ _
      | .Neg _ | .Num _ => .ok .Number
      | .Bool _ | .Or _ _ | .And _ _ | .Not _ | .Xor _ _ | .Lt _ _
      | .Le _ _ | .Gt _ _ | .Ge _ _ | .Eq _ _ | .Ne _ _ => .ok .Bool
      | .Null => .ok .Null
      | .Variable _ => .ok .Any
      | .Function name _ =>
          match lookupStr st.functions name with
          | some fd => .ok fd.output
          | none => .error .panic
      | .FunctionDeclaration _ _ => .ok .Null
      | .Array _ => .ok .Array
      | .Block b =>
          match b.getLast? with
          | some e2 => dataTypeOf f e2 st
          | none => .error .panic
      | .VariableDeclaration _ _ => .ok .Null
      | .If _ b _ _ =>
          match b.getLast? with
          | some e2 => dataTypeOf f e2 st
          | none => .error .panic
      | .For _ _ _ | .While _ _ => .ok .Null

/-- Interpretation of builtin tags; the four higher-order tags (dead
code, see `builtintsList`) recurse through `hoRun`, everything else is
first-order. -/
def builtinImpl : Nat → BuiltinName → List Data → Except RunError Data
  | 0, _, _ => .error .outOfFuel
  | f+1, .hoMap, i =>
      match inputAt i 0, inputAt i 1 with
      | some a, some fv =>
          match dataFunction fv with
          | some fd => (hoMapIter f (dataArray a) fd).map Data.Array
          | none => .error .panic
      | _, _ => .error .panic
  | f+1, .hoForEach, i =>
      match inputAt i 0, inputAt i 1 with
      | some a, some fv =>
          match dataFunction fv with
          | some fd => do
              let _ ← hoForEachIter f (dataArray a) fd
              .ok .Null
          | none => .error .panic
      | _, _ => .error .panic
  | f+1, .hoFilter, i =>
      match inputAt i 0, inputAt i 1 with
      | some a, some fv =>
          match dataFunction fv with
          | some fd => (hoFilterIter f (dataArray a) fd).map Data.Array
          | none => .error .panic
      | _, _ => .error .panic
  | f+1, .hoFold, i =>
      match inputAt i 0, inputAt i 1, inputAt i 2 with
      | some a, some init, some fv =>
          match dataFunction fv with
          | some fd => hoFoldIter f (dataArray a) init fd
          | none => .error .panic
      | _, _, _ => .error .panic
  | _+1, b, i => builtinImplPure b i

/-- `run` from `functions/higher_order.rs`: same zip type check as the
`run!` macro, but a `Custom` body executes on a clone of the state the
caller passed (each call site passes `ExecutionState::new()`). -/
def hoRun : Nat → List Data → FunctionDescriptor → ExecutionState →
    Except RunError Data
  | 0, _, _, _ => .error .outOfFuel
  | f+1, inputs, fd, st =>
      if typesMatch inputs fd.inputs then
        match fd.function with
        | .BuiltIn b => builtinImpl f b inputs
        | .Custom block names =>
            match bindParams st.vars names inputs with
            | some vars =>
                (executeBlock f block { st with vars := vars }).map (fun p => p.1)
            | none => .error .panic
      else
        .error (.expr (.InvalidFunctionArguements (formatTypes fd.inputs)
          (formatTypes (inputs.map dataType))))

/-- `map`'s per-element loop (`collect::<EResult<Vec<_>>>` propagates
errors). -/
def hoMapIter : Nat → List Data → FunctionDescriptor →
    Except RunError (List Data)
  | 0, _, _ => .error .outOfFuel
  | _+1, [], _ => .ok []
  | f+1, x :: xs, fd => do
      let v ← hoRun f [x] fd ExecutionState.new
      let vs ← hoMapIter f xs fd
      .ok (v :: vs)

/-- `for_each`'s loop; the source `unwrap`s each result, so an inner
error is a panic. -/
def hoForEachIter : Nat → List Data → FunctionDescriptor →
    Except RunError Unit
  | 0, _, _ => .error .outOfFuel
  | _+1, [], _ => .ok ()
  | f+1, x :: xs, fd =>
      match hoRun f [x] fd ExecutionState.new with
      | .ok _ => hoForEachIter f xs fd
      | .error .outOfFuel => .error .outOfFuel
      | .error _ => .error .panic

/-- `filter`'s loop (`unwrap().is_true()`). -/
def hoFilterIter : Nat → List Data → FunctionDescriptor →
    Except RunError (List Data)
  | 0, _, _ => .error .outOfFuel
  | _+1, [], _ => .ok []
  | f+1, x :: xs, fd =>
      match hoRun f [x] fd ExecutionState.new with
      | .ok v => do
          let rest ← hoFilterIter f xs fd
          if dataIsTrue v then .ok (x :: rest) else .ok rest
      | .error .outOfFuel => .error .outOfFuel
      | .error _ => .error .panic

/-- `fold`'s loop (`unwrap` per step). -/
def hoFoldIter : Nat → List Data → Data → FunctionDescriptor →
    Except RunError Data
  | 0, _, _, _ => .error .outOfFuel
  | _+1, [], acc, _ => .ok acc
  | f+1, x :: xs, acc, fd =>
      match hoRun f [acc, x] fd ExecutionState.new with
      | .ok acc2 => hoFoldIter f xs acc2 fd
      | .error .outOfFuel => .error .outOfFuel
      | .error _ => .error .panic

end

/-- Token stream elements, from `lexer.rs` (`enum Token`).  Note the
enum has no `Fn`, `While`, `For`, `In`, `Colon` or `Arrow` variants,
although `parser.rs` pattern-matches on such names. -/
inductive Token where
  | Plus | Minus | Multiply | Divide | Modulo
  | LParen | RParen | Comma | Eol
  | Let | AssignTo | True | False
  | GreaterThan | LessThan | GreaterEqual | LessEqual
  | Not | And | Or | Xor | Equals | NotEquals
  | Number (n : Decimal)
  | String (s : String)
  | Ident (s : String)
  | BlockStart | BlockEnd
  | If | Else
  | Comment (s : String)
  | ArrayStart | ArrayEnd | Dot | ElseIf
deriving DecidableEq, Repr

/-- `Token::is_comment` (via `strum::EnumIs`). -/
def tokIsComment : Token → Bool
  | .Comment _ => true
  | _ => false

/-- The `#[token("…")]` literal patterns of `lexer.rs` with the tokens
they produce. -/
def litList : List (String × Token) :=
  [("+", .Plus), ("-", .Minus), ("*", .Multiply), ("/", .Divide),
   ("%", .Modulo), ("(", .LParen), (")", .RParen), (",", .Comma),
   (";", .Eol), ("let", .Let), (":=", .AssignTo), ("true", .True),
   ("false", .False), (">", .GreaterThan), ("<", .LessThan),
   (">=", .GreaterEqual), ("<=", .LessEqual), ("!", .Not), ("&&", .And),
   ("||", .Or), ("^", .Xor), ("==", .Equals), ("!=", .NotEquals),
   ("\x7b", .BlockStart), ("\x7d", .BlockEnd), ("if", .If), ("else", .Else),
   ("[", .ArrayStart), ("]", .ArrayEnd), (".", .Dot), ("elif", .ElseIf)]

/-- Longest literal token matching a prefix of the input. -/
def longestLit (cs : List Char) : Option (Nat × Token) :=
  litList.foldl
    (fun best p =>
      let l := p.1.toList
      if l.isPrefixOf cs then
        match best with
        | some (n, _) => if l.length > n then some (l.length, p.2) else best
        | none => some (l.length, p.2)
      else best)
    none

def digitsToNat (ds : List Char) : Nat :=
  ds.foldl (fun a c => 10 * a + (c.toNat - '0'.toNat)) 0

/-- The numeric literal regex `\d+(\.\d+)?` of `lexer.rs`, together
with `Decimal::from_str` on the slice (exact within the claims'
ranges). -/
def matchNumber (cs : List Char) : Option (Nat × Decimal) :=
  let ds := cs.takeWhile Char.isDigit
  if ds.isEmpty then none
  else
    let rest := cs.drop ds.length
    let intVal : Decimal := (digitsToNat ds : Nat)
    match rest with
    | '.' :: rest2 =>
        let fs := rest2.takeWhile Char.isDigit
        if fs.isEmpty then some (ds.length, intVal)
        else some (ds.length + 1 + fs.length,
          intVal + (digitsToNat fs : Decimal) / ((10 : Decimal) ^ fs.length))
    | _ => some (ds.length, intVal)

def isIdentStart (c : Char) : Bool := c.isAlpha || c == '_'

def isIdentCont (c : Char) : Bool := c.isAlphanum || c == '_'

/-- The identifier regex `[a-zA-Z_][a-zA-Z0-9_]*` (its Rust callback
re-checks the same character set and cannot fail). -/
def matchIdent (cs : List Char) : Option (Nat × String) :=
  match cs with
  | c :: rest =>
      if isIdentStart c then
        let tail := rest.takeWhile isIdentCont
        some (1 + tail.length, String.mk (c :: tail))
      else none
  | [] => none

/-- The comment regex `//.*` (to end of line, slice kept). -/
def matchComment (cs : List Char) : Option (Nat × String) :=
  match cs with
  | '/' :: '/' :: rest =>
      let body := rest.takeWhile (fun c => c != '\n')
      some (2 + body.length, String.mk ('/' :: '/' :: body))
  | _ => none

/-- Body of the string-literal regex `"([^"\\]|\\.)*"` after the
opening quote: returns consumed length and content (escapes kept
verbatim, as the callback only strips the quotes). -/
def strBody : List Char → Option (Nat × List Char)
  | [] => none
  | '"' :: _ => some (0, [])
  | '\\' :: c :: rest =>
      (strBody rest).map (fun p => (p.1 + 2, '\\' :: c :: p.2))
  | '\\' :: [] => none
  | c :: rest => (strBody rest).map (fun p => (p.1 + 1, c :: p.2))

def matchStringTok (cs : List Char) : Option (Nat × String) :=
  match cs with
  | '"' :: rest =>
      (strBody rest).map (fun p => (p.1 + 2, String.mk p.2))
  | _ => none

/-- The `\s` whitespace class skipped by logos (ASCII part; the claims
use no exotic whitespace). -/
def isWsChar (c : Char) : Bool :=
  c == ' ' || c == '\t' || c == '\n' || c == '\r' ||
  c == '\x0b' || c == '\x0c'

/-- One logos step at a non-whitespace position: the longest match
wins; on equal length the explicit `#[token]` literal (priority
`2·len`) beats `Number`/`String` (priority 2), which beat
`Ident`/`Comment` (priority 1). -/
def lexStep (cs : List Char) : Option (Nat × Token) :=
  let cands : List (Nat × Nat × Token) :=
    (match longestLit cs with
     | some (n, t) => [(n, 2 * n, t)]
     | none => []) ++
    (match matchNumber cs with
     | some (n, v) => [(n, 2, Token.Number v)]
     | none => []) ++
    (match matchStringTok cs with
     | some (n, s) => [(n, 2, Token.String s)]
     | none => []) ++
    (match matchIdent cs with
     | some (n, s) => [(n, 1, Token.Ident s)]
     | none => []) ++
    (match matchComment cs with
     | some (n, s) => [(n, 1, Token.Comment s)]
     | none => [])
  match cands.foldl
    (fun best c =>
      match best with
      | none => some c
      | some b =>
          if c.1 > b.1 || (c.1 == b.1 && c.2.1 > b.2.1) then some c else b)
    none with
  | some (n, _, t) => some (n, t)
  | none => none

/-- The lexing loop (`Token::lexer(input)` driven to the end); `none`
is a lex error, on which `main.rs` exits with code 1. -/
def lexAll : Nat → List Char → Option (List Token)
  | 0, _ => none
  | f+1, cs =>
      let cs := cs.dropWhile isWsChar
      if cs.isEmpty then some []
      else
        match lexStep cs with
        | some (n, t) =>
            if n == 0 then none
            else (lexAll f (cs.drop n)).map (fun ts => t :: ts)
        | none => none

def lexString (s : String) : Option (List Token) :=
  lexAll (s.length + 1) s.toList

mutual

/-- The `statement` production of `parser.rs`:
`variable_declaration .or(expr ;) .or(while_loop) .or(for_loop)
.or(function_declaration)`.  The last three match token variants
(`Token::While`, `Token::For`, `Token::In`, `Token::Fn`, `Token::Colon`,
`Token::Arrow`) that `lexer.rs` does not define, so no token stream can
satisfy them; they are the always-failing tail of the choice. -/
def parseStmt : Nat → List Token → Option (Expr × List Token)
  | 0, _ => none
  | f+1, toks =>
      (parseVarDecl f toks) <|>
      (match parseExpr f toks with
       | some (e, .Eol :: rest) => some (e, rest)
       | _ => none)

/-- `let IDENT := expr ;`. -/
def parseVarDecl : Nat → List Token → Option (Expr × List Token)
  | 0, _ => none
  | f+1, .Let :: .Ident name :: .AssignTo :: rest => do
      let (v, rest1) ← parseExpr f rest
      match rest1 with
      | .Eol :: rest2 => some (.VariableDeclaration name v, rest2)
      | _ => none
  | _+1, _ => none

/-- `stmt.repeated()` (greedy, stops at the first failure). -/
def parseStmts : Nat → List Token → Option (List Expr × List Token)
  | 0, _ => none
  | f+1, toks =>
      match parseStmt f toks with
      | some (e, rest) => do
          let (es, rest2) ← parseStmts f rest
          some (e :: es, rest2)
      | none => some ([], toks)

/-- `{ stmt* }`. -/
def parseBlock : Nat → List Token → Option (List Expr × List Token)
  | 0, _ => none
  | f+1, .BlockStart :: rest => do
      let (es, rest1) ← parseStmts f rest
      match rest1 with
      | .BlockEnd :: rest2 => some (es, rest2)
      | _ => none
  | _+1, _ => none

/-- Top expression production (`boolean_2`: `&& || ^`, left fold). -/
def parseExpr : Nat → List Token → Option (Expr × List Token)
  | 0, _ => none
  | f+1, toks => do
      let (first, rest) ← parseBoolean1 f toks
      parseBoolean2Tail f first rest

def parseBoolean2Tail : Nat → Expr → List Token → Option (Expr × List Token)
  | 0, _, _ => none
  | f+1, acc, toks =>
      match toks with
      | .And :: rest =>
          match parseBoolean1 f rest with
          | some (item, rest1) => parseBoolean2Tail f (.And acc item) rest1
          | none => some (acc, toks)
      | .Or :: rest =>
          match parseBoolean1 f rest with
          | some (item, rest1) => parseBoolean2Tail f (.Or acc item) rest1
          | none => some (acc, toks)
      | .Xor :: rest =>
          match parseBoolean1 f rest with
          | some (item, rest1) => parseBoolean2Tail f (.Xor acc item) rest1
          | none => some (acc, toks)
      | _ => some (acc, toks)

/-- `boolean_1` (comparisons, left fold, operands in source order). -/
def parseBoolean1 : Nat → List Token → Option (Expr × List Token)
  | 0, _ => none
  | f+1, toks => do
      let (first, rest) ← parseBinary2 f toks
      parseBoolean1Tail f first rest

def parseBoolean1Tail : Nat → Expr → List Token → Option (Expr × List Token)
  | 0, _, _ => none
  | f+1, acc, toks =>
      match toks with
      | .GreaterEqual :: rest =>
          match parseBinary2 f rest with
          | some (item, rest1) => parseBoolean1Tail f (.Ge acc item) rest1
          | none => some (acc, toks)
      | .GreaterThan :: rest =>
          match parseBinary2 f rest with
          | some (item, rest1) => parseBoolean1Tail f (.Gt acc item) rest1
          | none => some (acc, toks)
      | .LessEqual :: rest =>
          match parseBinary2 f rest with
          | some (item, rest1) => parseBoolean1Tail f (.Le acc item) rest1
          | none => some (acc, toks)
      | .LessThan :: rest =>
          match parseBinary2 f rest with
          | some (item, rest1) => parseBoolean1Tail f (.Lt acc item) rest1
          | none => some (acc, toks)
      | .Equals :: rest =>
          match parseBinary2 f rest with
          | some (item, rest1) => parseBoolean1Tail f (.Eq acc item) rest1
          | none => some (acc, toks)
      | .NotEquals :: rest =>
          match parseBinary2 f rest with
          | some (item, rest1) => parseBoolean1Tail f (.Ne acc item) rest1
          | none => some (acc, toks)
      | _ => some (acc, toks)

/-- `binary_2` (additive, left fold): the closure is
`|lhs, (op, rhs)| Add/Sub(lhs, rhs)`, i.e. the accumulator is the LEFT
argument of the built node. -/
def parseBinary2 : Nat → List Token → Option (Expr × List Token)
  | 0, _ => none
  | f+1, toks => do
      let (first, rest) ← parseBinary1 f toks
      parseBinary2Tail f first rest

def parseBinary2Tail : Nat → Expr → List Token → Option (Expr × List Token)
  | 0, _, _ => none
  | f+1, acc, toks =>
      match toks with
      | .Plus :: rest =>
          match parseBinary1 f rest with
          | some (item, rest1) => parseBinary2Tail f (.Add acc item) rest1
          | none => some (acc, toks)
      | .Minus :: rest =>
          match parseBinary1 f rest with
          | some (item, rest1) => parseBinary2Tail f (.Sub acc item) rest1
          | none => some (acc, toks)
      | _ => some (acc, toks)

/-- `binary_1` (multiplicative, left fold): the closure is
`|rhs, (op, lhs)| Mul/Div/Mod(lhs, rhs)`, i.e. the accumulator becomes
the RIGHT argument of the built node (operands swapped in the AST). -/
def parseBinary1 : Nat → List Token → Option (Expr × List Token)
  | 0, _ => none
  | f+1, toks => do
      let (first, rest) ← parseUnary f toks
      parseBinary1Tail f first rest

def parseBinary1Tail : Nat → Expr → List Token → Option (Expr × List Token)
  | 0, _, _ => none
  | f+1, acc, toks =>
      match toks with
      | .Multiply :: rest =>
          match parseUnary f rest with
          | some (item, rest1) => parseBinary1Tail f (.Mul item acc) rest1
          | none => some (acc, toks)
      | .Divide :: rest =>
          match parseUnary f rest with
          | some (item, rest1) => parseBinary1Tail f (.Div item acc) rest1
          | none => some (acc, toks)
      | .Modulo :: rest =>
          match parseUnary f rest with
          | some (item, rest1) => parseBinary1Tail f (.Mod item acc) rest1
          | none => some (acc, toks)
      | _ => some (acc, toks)

/-- `unary`: `Minus.repeated()` then `atom.or(not)`, one `Neg` per
minus. -/
def parseUnary : Nat → List Token → Option (Expr × List Token)
  | 0, _ => none
  | f+1, toks =>
      let minuses := toks.takeWhile (fun t => t == Token.Minus)
      let rest := toks.drop minuses.length
      match parseAtomOrNot f rest with
      | some (e, rest1) =>
          some (minuses.foldl (fun acc _ => Expr.Neg acc) e, rest1)
      | none => none

/-- `atom.or(not)` where `not` is `!` followed by an atom. -/
def parseAtomOrNot : Nat → List Token → Option (Expr × List Token)
  | 0, _ => none
  | f+1, toks =>
      (parseAtomChain f toks) <|>
      (match toks with
       | .Not :: rest => (parseAtomChain f rest).map (fun p => (Expr.Not p.1, p.2))
       | _ => none)

/-- The post-atom method chain: `(. IDENT(args))*`, each desugared to
`IDENT(prev, args…)`. -/
def parseAtomChain : Nat → List Token → Option (Expr × List Token)
  | 0, _ => none
  | f+1, toks => do
      let (a, rest) ← parseAtomCore f toks
      parseMethodTail f a rest

def parseMethodTail : Nat → Expr → List Token → Option (Expr × List Token)
  | 0, _, _ => none
  | f+1, acc, toks =>
      match toks with
      | .Dot :: rest =>
          match parseCall f rest with
          | some (.Function name args, rest1) =>
              parseMethodTail f (.Function name (acc :: args)) rest1
          | _ => some (acc, toks)
      | _ => some (acc, toks)

/-- The `function` production: `IDENT ( args )`. -/
def parseCall : Nat → List Token → Option (Expr × List Token)
  | 0, _ => none
  | f+1, .Ident name :: .LParen :: rest => do
      let (args, rest1) ← parseArgs f rest
      match rest1 with
      | .RParen :: rest2 => some (.Function name args, rest2)
      | _ => none
  | _+1, _ => none

/-- `expr.separated_by(,).allow_trailing()` (possibly empty). -/
def parseArgs : Nat → List Token → Option (List Expr × List Token)
  | 0, _ => none
  | f+1, toks =>
      match parseExpr f toks with
      | none => some ([], toks)
      | some (e, rest) => parseArgsTail f [e] rest

def parseArgsTail : Nat → List Expr → List Token → Option (List Expr × List Token)
  | 0, _, _ => none
  | f+1, acc, toks =>
      match toks with
      | .Comma :: rest =>
          match parseExpr f rest with
          | some (e, rest1) => parseArgsTail f (e :: acc) rest1
          | none => some (acc.reverse, rest)
      | _ => some (acc.reverse, toks)

/-- The `if_block` production. -/
def parseIf : Nat → List Token → Option (Expr × List Token)
  | 0, _ => none
  | f+1, .If :: rest => do
      let (c, rest1) ← parseExpr f rest
      let (tb, rest2) ← parseBlock f rest1
      let (elifs, rest3) ← parseElifs f rest2
      match rest3 with
      | .Else :: rest4 => do
          let (eb, rest5) ← parseBlock f rest4
          some (.If c tb elifs (some eb), rest5)
      | _ => some (.If c tb elifs none, rest3)
  | _+1, _ => none

def parseElifs : Nat → List Token →
    Option (List (Expr × List Expr) × List Token)
  | 0, _ => none
  | f+1, toks =>
      match toks with
      | .ElseIf :: rest =>
          match (do
            let (c, r1) ← parseExpr f rest
            let (b, r2) ← parseBlock f r1
            some ((c, b), r2) : Option ((Expr × List Expr) × List Token)) with
          | some (p, rest1) => do
              let (ps, rest2) ← parseElifs f rest1
              some (p :: ps, rest2)
          | none => some ([], toks)
      | _ => some ([], toks)

/-- The `atom` ordered choice of `parser.rs` (block, parenthesised,
integer, negative integer, bool, call, variable, if, array, string). -/
def parseAtomCore : Nat → List Token → Option (Expr × List Token)
  | 0, _ => none
  | f+1, toks =>
      ((parseBlock f toks).map (fun p => (Expr.Block p.1, p.2))) <|>
      (match toks with
       | .LParen :: rest => (do
           let (e, rest1) ← parseExpr f rest
           match rest1 with
           | .RParen :: rest2 => some (e, rest2)
           | _ => none)
       | _ => none) <|>
      (match toks with
       | .Number n :: rest => some (Expr.Num n, rest)
       | _ => none) <|>
      (match toks with
       | .Minus :: .Number n :: rest => some (Expr.Neg (Expr.Num n), rest)
       | _ => none) <|>
      (match toks with
       | .True :: rest => some (Expr.Bool true, rest)
       | .False :: rest => some (Expr.Bool false, rest)
       | _ => none) <|>
      (parseCall f toks) <|>
      (match toks with
       | .Ident name :: rest => some (Expr.Variable name, rest)
       | _ => none) <|>
      (parseIf f toks) <|>
      (match toks with
       | .ArrayStart :: rest => (do
           let (es, rest1) ← parseArgs f rest
           match rest1 with
           | .ArrayEnd :: rest2 => some (Expr.Array es, rest2)
           | _ => none)
       | _ => none) <|>
      (match toks with
       | .String s :: rest => some (Expr.String s, rest)
       | _ => none)

end

/-- `parser()`: `statement.repeated().then_ignore(end())`. -/
def parseProgram (fuel : Nat) (toks : List Token) : Option (List Expr) :=
  match parseStmts fuel toks with
  | some (es, []) => some es
  | _ => none

/-- `run` from `main.rs`: lex (exit 1 on a lexer error, here `none`),
filter comment tokens, parse (exit 1 on parse errors, here `none`),
then execute the statement list against a fresh state.  The returned
value is the `output.0` of the final `execute_block`. -/
def runProgram (fuel : Nat) (source : String) : Option (Except RunError Data) :=
  match lexString source with
  | none => none
  | some toks =>
      match parseProgram fuel (toks.filter (fun t => !tokIsComment t)) with
      | none => none
      | some exprs =>
          some ((executeBlock fuel exprs ExecutionState.new).map (fun p => p.1))

/-- AST that `parser.rs` produces for `2 - 5 * 2 + 7 ;` (multiplicative
fold swaps operands, additive fold does not). -/
def c1AST : Expr := .Add (.Sub (.Num 2) (.Mul (.Num 2) (.Num 5))) (.Num 7)

/-- A user function `g` with no parameters whose body is `7`. -/
def gDesc : FunctionDescriptor := .mk [] (.Custom [.Num 7] []) .Number

/-- A user function `f` with no parameters whose body calls `g()`. -/
def fDesc : FunctionDescriptor := .mk [] (.Custom [.Function "g" []] []) .Number

/-- A caller state that knows both `f` and `g` and has a variable `y`. -/
def c2State : ExecutionState :=
  ⟨[("f", fDesc), ("g", gDesc)], [("y", .Number 42)], []⟩

/-- An identity-like user function with one `Number` parameter `n`
whose body is `n`. -/
def idDesc : FunctionDescriptor := .mk [.Number] (.Custom [.Variable "n"] ["n"]) .Any

/-- A caller state that knows `idf` and has a variable `z`. -/
def c2WitnessState : ExecutionState :=
  ⟨[("idf", idDesc)], [("z", .Number 5)], []⟩

/-- An empty execution state (no builtins, no variables, no constants). -/
def emptyState : ExecutionState := ⟨[], [], []⟩

/-- A state holding only the variable `v` bound to an empty array. -/
def c5WitnessState : ExecutionState := ⟨[], [("v", .Array [])], []⟩

/-- An expression whose successful evaluation always returns the caller
state unchanged (the conditions/iterables of control constructs are
evaluated directly against the caller state, so this matters there). -/
def StatePreserving (e : Expr) : Prop :=
  ∀ (f : Nat) (s : ExecutionState) (v : Data) (s' : ExecutionState),
    eval f e s = .ok (v, s') → s' = s

set_option maxRecDepth 100000
set_option maxHeartbeats 3200000

/-- C7: the lexer keyword inventory.  `let`, `if`, `elif`, `else`,
`true`, `false` lex as their distinct keyword tokens (the keyword
pattern outranks the identifier rule, so `letter` is still one
identifier), but `fn`, `while`, `for` and `in` have no keyword token in
`lexer.rs` at all and are emitted as identifier tokens. -/
theorem C7_keyword_tokens :
    lexString "let" = some [.Let] ∧
    lexString "if" = some [.If] ∧
    lexString "elif" = some [.ElseIf] ∧
    lexString "else" = some [.Else] ∧
    lexString "true" = some [.True] ∧
    lexString "false" = some [.False] ∧
    lexString "fn" = some [.Ident "fn"] ∧
    lexString "while" = some [.Ident "while"] ∧
    lexString "for" = some [.Ident "for"] ∧
    lexString "in" = some [.Ident "in"] ∧
    lexString "letter" = some [.Ident "letter"] :=
  ⟨rfl, rfl, rfl, rfl, rfl, rfl, rfl, rfl, rfl, rfl, rfl⟩

/-- C6: the registry built by `builtints()` binds none of `map`,
`for_each`, `filter`, `fold` (the `higher_order` module is never
declared in `functions/mod.rs`), so calling `map` fails with
`FunctionNotFound`; the dead module's descriptors do carry the
`(Array, Function[, Init])` signatures the claim describes. -/
theorem C6_ho_not_registered :
    lookupStr builtints "map" = none ∧
    lookupStr builtints "for_each" = none ∧
    lookupStr builtints "filter" = none ∧
    lookupStr builtints "fold" = none ∧
    eval 10 (.Function "map" [.Array [.Num 1], .Num 2]) ExecutionState.new =
      .error (.expr (.FunctionNotFound "map")) ∧
    map_descriptor.inputs = [.Array, .Function] ∧
    for_each_descriptor.inputs = [.Array, .Function] ∧
    filter_descriptor.inputs = [.Array, .Function] ∧
    fold_descriptor.inputs = [.Array, .Any, .Function] :=
  ⟨rfl, rfl, rfl, rfl, rfl, rfl, rfl, rfl, rfl⟩

/-- C8: `Var(name)` looks up `variables` first, then `constants`, and
errors `VariableNotFound` when both miss; on a collision the
`variables` binding is returned. -/
theorem C8_var_lookup (f : Nat) (name : String) (s : ExecutionState) :
    (∀ v, lookupStr s.vars name = some v →
        eval (f+1) (.Variable name) s = .ok (v, s)) ∧
    (lookupStr s.vars name = none → ∀ v, lookupStr s.constants name = some v →
        eval (f+1) (.Variable name) s = .ok (v, s)) ∧
    (lookupStr s.vars name = none → lookupStr s.constants name = none →
        eval (f+1) (.Variable name) s = .error (.expr (.VariableNotFound name))) := by
  refine ⟨?_, ?_, ?_⟩
  · intro v hv
    simp [eval, hv]
  · intro hv v hc
    simp [eval, hv, hc]
  · intro hv hc
    simp [eval, hv, hc]

/-- C8 witness: with `a` bound to 1 in `variables` and to 2 in
`constants`, the lookup returns the `variables` value. -/
theorem C8_var_lookup_witness :
    eval 1 (.Variable "a")
      ⟨[], [("a", .Number 1)], [("a", .Number 2)]⟩ =
    .ok (.Number 1, ⟨[], [("a", .Number 1)], [("a", .Number 2)]⟩) :=
  (C8_var_lookup 0 "a" ⟨[], [("a", .Number 1)], [("a", .Number 2)]⟩).1
    (.Number 1) rfl

/-- C9: the named builtins `sub` and `mod` read their operands
reversed (`rhs = i[0]`, `lhs = i[1]`), so `sub(a,b) = b - a` and
`mod(a,b) = b % a`, both at the builtin body and through registry
dispatch; the operator forms are unaffected because the multiplicative
parser fold already builds `Mul/Div/Mod` with the operands swapped, so
`a * b`, `a / b` (for `b ≠ 0`) and `a % b` evaluate conventionally. -/
theorem C9_operand_reversal (a b : Decimal) :
    builtinImplPure .sub [.Number a, .Number b] = .ok (.Number (b - a)) ∧
    builtinImplPure .mod_func [.Number a, .Number b] =
      .ok (.Number (decRem b a)) ∧
    eval 10 (.Function "sub" [.Num a, .Num b]) ExecutionState.new =
      .ok (.Number (b - a), ExecutionState.new) ∧
    eval 10 (.Function "mod" [.Num a, .Num b]) ExecutionState.new =
      .ok (.Number (decRem b a), ExecutionState.new) ∧
    parseProgram 20 [.Number a, .Multiply, .Number b, .Eol] =
      some [.Mul (.Num b) (.Num a)] ∧
    parseProgram 20 [.Number a, .Divide, .Number b, .Eol] =
      some [.Div (.Num b) (.Num a)] ∧
    parseProgram 20 [.Number a, .Modulo, .Number b, .Eol] =
      some [.Mod (.Num b) (.Num a)] ∧
    eval 10 (.Mul (.Num b) (.Num a)) ExecutionState.new =
      .ok (.Number (a * b), ExecutionState.new) ∧
    eval 10 (.Mod (.Num b) (.Num a)) ExecutionState.new =
      .ok (.Number (decRem a b), ExecutionState.new) ∧
    (b ≠ 0 → eval 10 (.Div (.Num b) (.Num a)) ExecutionState.new =
      .ok (.Number (a / b), ExecutionState.new)) := by
  refine ⟨rfl, rfl, rfl, rfl, rfl, rfl, rfl, rfl, rfl, ?_⟩
  intro hb
  have hbeq : (b == (0 : Decimal)) = false := by simp [hb]
  have hstep : eval 10 (.Div (.Num b) (.Num a)) ExecutionState.new =
      (builtinImplPure .div [.Number b, .Number a]).bind
        (fun d => .ok (d, ExecutionState.new)) := rfl
  rw [hstep]
  simp [builtinImplPure, inputAt, dataNumber, hbeq, Except.bind]

/-- C9 witness: at `a = 10`, `b = 4` the operator division conjunct
applies (4 ≠ 0) and yields 10/4. -/
theorem C9_operand_reversal_witness :
    eval 10 (.Div (.Num 4) (.Num 10)) ExecutionState.new =
      .ok (.Number ((10 : Decimal) / 4), ExecutionState.new) :=
  (C9_operand_reversal 10 4).2.2.2.2.2.2.2.2.2 (by norm_num)

/-- C10: `range(a, b)` on non-negative integers returns the half-open
sequence `[a, a+1, …, b-1]` (`List.range' a (b-a)`), whose members are
exactly the `n` with `a ≤ n < b`; it is empty whenever `a ≥ b`, and the
registry-dispatched call agrees. -/
theorem C10_range_half_open (a b : Nat) :
    builtinImplPure .range [.Number (a : Decimal), .Number (b : Decimal)] =
      .ok (.Array ((List.range' a (b - a)).map
        (fun n => .Number (n : Decimal)))) ∧
    (∀ n : Nat, n ∈ List.range' a (b - a) ↔ a ≤ n ∧ n < b) ∧
    eval 10 (.Function "range" [.Num (a : Decimal), .Num (b : Decimal)])
        ExecutionState.new =
      .ok (.Array ((List.range' a (b - a)).map
        (fun n => .Number (n : Decimal))), ExecutionState.new) ∧
    (b ≤ a →
      builtinImplPure .range [.Number (a : Decimal), .Number (b : Decimal)] =
        .ok (.Array [])) := by
  have hpure : builtinImplPure .range
      [.Number (a : Decimal), .Number (b : Decimal)] =
      .ok (.Array ((List.range' a (b - a)).map
        (fun n => .Number (n : Decimal)))) := by
    simp [builtinImplPure, inputAt, dataNumber, decToUsize,
          Rat.den_natCast, Rat.num_natCast]
  refine ⟨hpure, ?_, ?_, ?_⟩
  · intro n
    rw [List.mem_range'_1]
    omega
  · have hstep : eval 10 (.Function "range"
        [.Num (a : Decimal), .Num (b : Decimal)]) ExecutionState.new =
        (builtinImplPure .range
          [.Number (a : Decimal), .Number (b : Decimal)]).bind
          (fun d => .ok (d, ExecutionState.new)) := rfl
    rw [hstep, hpure]
    rfl
  · intro hba
    rw [hpure]
    have : b - a = 0 := Nat.sub_eq_zero_of_le hba
    rw [this]
    rfl

/-- C10 witness: at `a = 3`, `b = 1` (so `a ≥ b`) the result is the
empty array. -/
theorem C10_range_half_open_witness :
    builtinImplPure .range
      [.Number ((3 : Nat) : Decimal), .Number ((1 : Nat) : Decimal)] =
      .ok (.Array []) :=
  (C10_range_half_open 3 1).2.2.2 (by norm_num)

/-- C4 counterexample: the named call `div(1, 0)` does not raise
`DivideBy0` — it returns `Number(0)`, because `div` reads its divisor
from `i[0]` (the first argument), not the second. -/
theorem C4_counterexample :
    eval 10 (.Function "div" [.Num 1, .Num 0]) ExecutionState.new =
      .ok (.Number 0, ExecutionState.new) := by
  have h : eval 10 (.Function "div" [.Num 1, .Num 0]) ExecutionState.new =
      .ok (.Number ((0 : Decimal) / 1), ExecutionState.new) := rfl
  rw [h]
  norm_num

/-- C4 amended: the builtin `div` errors `DivideBy0` exactly when its
FIRST argument is zero (returning `i[1] / i[0]` otherwise, so
`div(x, 0) = Number(0)` for `x ≠ 0`), while the operator form `x / 0`
always errors `DivideBy0` because the parser builds `Div(0, x)` and
evaluation reads the divisor from the first input. -/
theorem C4_div_by_first_arg :
    (∀ x y : Decimal, builtinImplPure .div [.Number x, .Number y] =
        if x = 0 then .error (.expr .DivideBy0) else .ok (.Number (y / x))) ∧
    (∀ x : Decimal, parseProgram 20 [.Number x, .Divide, .Number 0, .Eol] =
        some [.Div (.Num 0) (.Num x)]) ∧
    (∀ x : Decimal, eval 10 (.Div (.Num 0) (.Num x)) ExecutionState.new =
        .error (.expr .DivideBy0)) := by
  refine ⟨?_, fun x => rfl, fun x => rfl⟩
  intro x y
  by_cases h : x = 0 <;>
    simp [builtinImplPure, inputAt, dataNumber, bErr, h]

/-- Zipping is insensitive to list elements beyond the shorter length:
appending extra left-hand elements past the right-hand length changes
nothing. -/
theorem zip_append_of_le {α β : Type} (l₁ : List α) (l₂ : List α)
    (l₃ : List β) (h : l₃.length ≤ l₁.length) :
    (l₁ ++ l₂).zip l₃ = l₁.zip l₃ := by
  induction l₁ generalizing l₃ with
  | nil =>
      have : l₃ = [] := List.eq_nil_of_length_eq_zero (Nat.le_zero.mp h)
      subst this
      simp
  | cons a l₁ ih =>
      cases l₃ with
      | nil => simp
      | cons b l₃ =>
          simp only [List.cons_append, List.zip_cons_cons, List.cons.injEq,
            true_and]
          exact ih l₃ (Nat.succ_le_succ_iff.mp h)

/-- C3 counterexample: `neg` declares one input, yet calling it with
two arguments does not raise `InvalidFunctionArguements` — the call
succeeds and returns `-1`. -/
theorem C3_counterexample :
    neg_descriptor.inputs.length = 1 ∧
    [Expr.Num 1, Expr.Num 2].length = 2 ∧
    eval 10 (.Function "neg" [.Num 1, .Num 2]) ExecutionState.new =
      .ok (.Number (-1), ExecutionState.new) :=
  ⟨rfl, rfl, rfl⟩

/-- C3 amended: the dispatch type check zips argument types with the
expected list and never compares lengths, so arguments beyond the
declared arity are ignored (extra well-typed arguments dispatch
successfully, e.g. `max(1, 2, 50)` returns `max 1 2`);
`InvalidFunctionArguements` arises only from a type mismatch within
the zipped prefix. -/
theorem C3_zip_prefix_check :
    (∀ (ds extra : List Data) (ins : List DataType),
        ins.length ≤ ds.length →
        typesMatch (ds ++ extra) ins = typesMatch ds ins) ∧
    eval 10 (.Function "max" [.Num 1, .Num 2, .Num 50]) ExecutionState.new =
      .ok (.Number (max 1 2), ExecutionState.new) := by
  refine ⟨?_, rfl⟩
  intro ds extra ins h
  unfold typesMatch
  rw [List.map_append, zip_append_of_le (ds.map dataType) (extra.map dataType)
    ins (by simpa using h)]

/-- C3 witness: instantiating the prefix lemma at one extra boolean
argument past a one-slot signature. -/
theorem C3_zip_prefix_check_witness :
    typesMatch ([.Number 1] ++ [.Bool true]) [.Number] =
      typesMatch [.Number 1] [.Number] :=
  C3_zip_prefix_check.1 [.Number 1] [.Bool true] [.Number] (by decide)

/-- C1: the crate's own test `test_order` (main.rs) and the spec expect
`2 - 5 * 2 + 7 ;` to evaluate to `Number(-1)`, but the pipeline
produces `Number(15)`: the parser builds
`Add(Sub(2, Mul(2, 5)), 7)` (additive fold does not swap operands)
while the `sub` builtin computes `i[1] - i[0]`, so `Sub(2, 10)`
evaluates to `10 - 2 = 8` and the program to `15`. -/
theorem C1_pipeline_evaluates_to_15 :
    lexString "2 - 5 * 2 + 7 ;" =
      some [.Number 2, .Minus, .Number 5, .Multiply, .Number 2, .Plus,
            .Number 7, .Eol] ∧
    parseProgram 60
      [.Number 2, .Minus, .Number 5, .Multiply, .Number 2, .Plus,
       .Number 7, .Eol] = some [c1AST] ∧
    runProgram 60 "2 - 5 * 2 + 7 ;" = some (.ok (.Number 15)) ∧
    runProgram 60 "2-5*2+7;" = some (.ok (.Number 15)) ∧
    ¬ runProgram 60 "2-5*2+7;" = some (.ok (.Number (-1))) := by
  have h1 : lexString "2 - 5 * 2 + 7 ;" =
      some [.Number 2, .Minus, .Number 5, .Multiply, .Number 2, .Plus,
            .Number 7, .Eol] := rfl
  have h3 : runProgram 60 "2 - 5 * 2 + 7 ;" =
      some (.ok (.Number (7 + (5 * 2 - 2)))) := rfl
  have h4 : runProgram 60 "2-5*2+7;" =
      some (.ok (.Number (7 + (5 * 2 - 2)))) := rfl
  have hval : (7 + (5 * 2 - 2) : Decimal) = 15 := by norm_num
  refine ⟨h1, rfl, ?_, ?_, ?_⟩
  · rw [h3, hval]
  · rw [h4, hval]
  · rw [h4, hval]
    intro hcontra
    have : (15 : Decimal) = -1 := by
      injection hcontra with h
      injection h with h
      injection h
    norm_num at this

theorem exBind_ok {ε α β : Type} (x : α) (k : α → Except ε β) :
    (Except.ok x >>= k) = k x := rfl

theorem exBind_error {ε α β : Type} (e : ε) (k : α → Except ε β) :
    ((Except.error e : Except ε α) >>= k) = Except.error e := rfl

theorem exMap_ok {ε α β : Type} (g : α → β) (x : α) :
    (Except.ok x : Except ε α).map g = .ok (g x) := rfl

theorem exMap_error {ε α β : Type} (g : α → β) (e : ε) :
    (Except.error e : Except ε α).map g = .error e := rfl

/-- C2 counterexample: the caller state knows the user function `g`
(and has a variable `y`), yet calling the user function `f`, whose body
is `g()`, fails with `FunctionNotFound("g")`: the invocation state is a
fresh `ExecutionState::new()`, not a clone of the caller. -/
theorem C2_counterexample :
    lookupStr c2State.functions "g" = some gDesc ∧
    lookupStr c2State.vars "y" = some (.Number 42) ∧
    eval 30 (.Function "f" []) c2State =
      .error (.expr (.FunctionNotFound "g")) :=
  ⟨rfl, rfl, rfl⟩

/-- C2 amended: dispatching a user function runs its block under a
freshly constructed `ExecutionState` (builtin registry, default
constants, empty variables) with only the parameters bound — so the
body sees builtins and default constants but not the caller's
user-declared functions or variables — and the caller continues with
the state it had after argument evaluation, so no mutation escapes. -/
theorem C2_fresh_invocation_state
    (f : Nat) (fname : String) (fd : FunctionDescriptor)
    (block : List Expr) (names : List String) (args : List Expr)
    (ds : List Data) (s s₁ : ExecutionState) (vars : VariableMap)
    (hlook : lookupStr s.functions fname = some fd)
    (hcustom : fd.function = .Custom block names)
    (hargs : evalList f args s = .ok (ds, s₁))
    (htypes : typesMatch ds fd.inputs = true)
    (hbind : bindParams ExecutionState.new.vars names ds = some vars) :
    eval (f+2) (.Function fname args) s =
      (executeBlock f block { ExecutionState.new with vars := vars }).map
        (fun p => (p.1, s₁)) := by
  have h0 : eval (f+2) (.Function fname args) s =
      (match lookupStr s.functions fname with
       | some fd0 => runFn (f+1) fd0 args s
       | none => .error (.expr (.FunctionNotFound fname))) := rfl
  rw [h0, hlook]
  simp only [runFn]
  rw [hargs, exBind_ok]
  simp only [htypes, if_true]
  rw [hcustom]
  simp only [hbind]
  cases hx : executeBlock f block { ExecutionState.new with vars := vars } with
  | ok p =>
      obtain ⟨d, st⟩ := p
      rw [exBind_ok, exMap_ok]
  | error e =>
      rw [exBind_error, exMap_error]

/-- C2 witness: calling the identity-like user function `idf(3)` from a
caller that holds a variable `z` dispatches onto the fresh state with
`n ↦ 3` bound, returning the caller state unchanged. -/
theorem C2_fresh_invocation_state_witness :
    eval 12 (.Function "idf" [.Num 3]) c2WitnessState =
      (executeBlock 10 [.Variable "n"]
        { ExecutionState.new with vars := [("n", .Number 3)] }).map
        (fun p => (p.1, c2WitnessState)) :=
  C2_fresh_invocation_state 10 "idf" idDesc [.Variable "n"] ["n"]
    [.Num 3] [.Number 3] c2WitnessState c2WitnessState [("n", .Number 3)]
    rfl rfl rfl rfl rfl

/-- Variable references never change the state they are evaluated in. -/
theorem statePreserving_variable (name : String) :
    StatePreserving (.Variable name) := by
  intro f s v s' h
  match f with
  | 0 => simp [eval] at h
  | f+1 =>
    simp only [eval] at h
    cases hv : lookupStr s.vars name with
    | some w =>
        rw [hv] at h
        simp only [Except.ok.injEq, Prod.mk.injEq] at h
        exact h.2.symm
    | none =>
        rw [hv] at h
        cases hc : lookupStr s.constants name with
        | some w =>
            rw [hc] at h
            simp only [Except.ok.injEq, Prod.mk.injEq] at h
            exact h.2.symm
        | none =>
            rw [hc] at h
            simp at h

/-- The elif cascade of `Expr::If` hands back the state it was entered
with whenever every elif condition is itself state-preserving. -/
theorem evalElifs_state (elifs : List (Expr × List Expr)) :
    ∀ (f : Nat) (eb : Option (List Expr)) (s : ExecutionState) (d : Data)
      (s' : ExecutionState),
      (∀ p ∈ elifs, StatePreserving p.1) →
      evalElifs f elifs eb s = .ok (d, s') → s' = s := by
  induction elifs with
  | nil =>
      intro f eb s d s' _ h
      match f with
      | 0 => simp [evalElifs] at h
      | f+1 =>
        simp only [evalElifs] at h
        split at h
        · rename_i b
          cases hx : executeBlock f b s with
          | ok p =>
              rw [hx, exMap_ok] at h
              simp only [Except.ok.injEq, Prod.mk.injEq] at h
              exact h.2.symm
          | error e => rw [hx, exMap_error] at h; simp at h
        · simp only [Except.ok.injEq, Prod.mk.injEq] at h
          exact h.2.symm
  | cons hd tl ih =>
      intro f eb s d s' hpres h
      match f with
      | 0 => simp [evalElifs] at h
      | f+1 =>
        obtain ⟨c, blk⟩ := hd
        simp only [evalElifs] at h
        cases hcv : eval f c s with
        | error e => rw [hcv, exBind_error] at h; simp at h
        | ok p =>
          rw [hcv, exBind_ok] at h
          obtain ⟨cv, s1⟩ := p
          have hs1 : s1 = s := hpres (c, blk) (by simp) f s cv s1 hcv
          rw [hs1] at h
          cases cv with
          | Bool bv =>
              cases bv with
              | true =>
                  simp only [if_true] at h
                  cases hx : executeBlock f blk s with
                  | ok p2 =>
                      rw [hx, exMap_ok] at h
                      simp only [Except.ok.injEq, Prod.mk.injEq] at h
                      exact h.2.symm
                  | error e => rw [hx, exMap_error] at h; simp at h
              | false =>
                  simp only [Bool.false_eq_true, if_false] at h
                  exact ih f eb s d s'
                    (fun p hp => hpres p (List.mem_cons_of_mem _ hp)) h
          | Number n => simp at h
          | String str => simp at h
          | Null => simp at h
          | Array arr => simp at h
          | Function fd => simp at h

/-- C5 counterexample: evaluating a `For` loop whose iterable is the
array literal `[let x := 1]` succeeds with `Null` yet leaves `x` bound
in the caller's variable map — the iterable is evaluated directly
against the caller's state, so the claim's "leaves the caller's
variable map unchanged" fails for `For`. -/
theorem C5_counterexample :
    eval 10 (.For "i" (.Array [.VariableDeclaration "x" (.Num 1)]) [])
        emptyState =
      .ok (.Null, ⟨[], [("x", .Number 1)], []⟩) ∧
    lookupStr (⟨[], [("x", .Number 1)], []⟩ : ExecutionState).vars "x" =
      some (.Number 1) ∧
    lookupStr emptyState.vars "x" = none :=
  ⟨rfl, rfl, rfl⟩

/-- C5 amended: scoped constructs run their blocks on clones and
publish nothing: a `Block` returns the caller state unchanged; a
successful `While` returns `Null` and restores the entry state; a
successful `For` returns `Null` and — provided evaluating the iterable
expression itself leaves the state unchanged — restores the caller
state; a successful `If` likewise leaves the state unchanged provided
its condition and elif conditions are state-preserving.  (The
counterexample shows the proviso is needed: iterables/conditions are
evaluated on the caller's state.) -/
theorem C5_scope_isolation :
    (∀ (f : Nat) (es : List Expr) (s : ExecutionState) (d : Data)
        (s' : ExecutionState),
        eval (f+1) (.Block es) s = .ok (d, s') → s' = s) ∧
    (∀ (f : Nat) (c : Expr) (b : List Expr) (s : ExecutionState) (d : Data)
        (s' : ExecutionState),
        eval (f+1) (.While c b) s = .ok (d, s') → d = .Null ∧ s' = s) ∧
    (∀ (f : Nat) (n : String) (iter : Expr) (b : List Expr)
        (s : ExecutionState) (d : Data) (s' : ExecutionState),
        StatePreserving iter →
        eval (f+1) (.For n iter b) s = .ok (d, s') → d = .Null ∧ s' = s) ∧
    (∀ (f : Nat) (c : Expr) (tb : List Expr)
        (elifs : List (Expr × List Expr)) (eb : Option (List Expr))
        (s : ExecutionState) (d : Data) (s' : ExecutionState),
        StatePreserving c → (∀ p ∈ elifs, StatePreserving p.1) →
        eval (f+1) (.If c tb elifs eb) s = .ok (d, s') → s' = s) := by
  refine ⟨?_, ?_, ?_, ?_⟩
  · intro f es s d s' h
    have he : eval (f+1) (.Block es) s =
        (executeBlock f es s).map (fun p => (p.1, s)) := rfl
    rw [he] at h
    cases hx : executeBlock f es s with
    | ok p =>
        rw [hx, exMap_ok] at h
        simp only [Except.ok.injEq, Prod.mk.injEq] at h
        exact h.2.symm
    | error e => rw [hx, exMap_error] at h; simp at h
  · intro f c b s d s' h
    simp only [eval] at h
    cases hw : whileLoop f c b s with
    | ok u =>
        rw [hw, exBind_ok] at h
        simp only [Except.ok.injEq, Prod.mk.injEq] at h
        exact ⟨h.1.symm, h.2.symm⟩
    | error e => rw [hw, exBind_error] at h; simp at h
  · intro f n iter b s d s' hpres h
    simp only [eval] at h
    cases hit : eval f iter s with
    | error e => rw [hit, exBind_error] at h; simp at h
    | ok p =>
      rw [hit, exBind_ok] at h
      obtain ⟨av, s1⟩ := p
      have hs1 : s1 = s := hpres f s av s1 hit
      rw [hs1] at h
      cases av with
      | Array arr =>
          dsimp only at h
          cases hfl : forLoop f n arr b s with
          | ok u =>
              rw [hfl, exBind_ok] at h
              simp only [Except.ok.injEq, Prod.mk.injEq] at h
              exact ⟨h.1.symm, h.2.symm⟩
          | error e => rw [hfl, exBind_error] at h; simp at h
      | Number num => simp at h
      | Bool bv => simp at h
      | String str => simp at h
      | Null => simp at h
      | Function fd => simp at h
  · intro f c tb elifs eb s d s' hc helifs h
    simp only [eval] at h
    cases hcv : eval f c s with
    | error e => rw [hcv, exBind_error] at h; simp at h
    | ok p =>
      rw [hcv, exBind_ok] at h
      obtain ⟨cv, s1⟩ := p
      have hs1 : s1 = s := hc f s cv s1 hcv
      rw [hs1] at h
      cases cv with
      | Bool bv =>
          cases bv with
          | true =>
              simp only [if_true] at h
              cases hx : executeBlock f tb s with
              | ok p2 =>
                  rw [hx, exMap_ok] at h
                  simp only [Except.ok.injEq, Prod.mk.injEq] at h
                  exact h.2.symm
              | error e => rw [hx, exMap_error] at h; simp at h
          | false =>
              simp only [Bool.false_eq_true, if_false] at h
              exact evalElifs_state elifs f eb s d s' helifs h
      | Number num => simp at h
      | String str => simp at h
      | Null => simp at h
      | Array arr => simp at h
      | Function fd => simp at h

/-- C5 witness: a `For` over the variable `v` (bound to an empty array)
satisfies the state-preservation proviso and indeed returns `Null`
with the caller state intact. -/
theorem C5_scope_isolation_witness :
    Data.Null = Data.Null ∧ c5WitnessState = c5WitnessState :=
  C5_scope_isolation.2.2.1 4 "i" (.Variable "v") [] c5WitnessState
    .Null c5WitnessState (statePreserving_variable "v") rfl

end LsSpec
